import Mathlib

set_option maxHeartbeats 1000000
set_option maxRecDepth 4000

/-!
Shallow embedding of the SQL-Cliq in-memory engine (the command handlers of
`src/unnamed/part_000`, i.e. the module exporting `handleCreateDatabase`,
`parseColumnDefinitions`, `handleSelectData`, ...).

Modelling conventions:
* JavaScript numbers are modelled as exact rationals (`Rat`).  `NaN` results of
  `parseInt`/`parseFloat` are modelled as `Option.none`; `Infinity` and IEEE
  rounding are outside the model (no claim depends on them).
* JavaScript strings are Lean `String`s; case conversion (`toUpperCase`,
  `toLowerCase`) is modelled on the ASCII letters, which covers every string
  literal appearing in the source.
* JavaScript objects used as ordered string-keyed maps (`DatabasesStructure`,
  `tables`, row objects) are modelled as association lists with the JS key
  semantics: updating an existing key keeps its position, adding a new key
  appends it, reading an absent key yields `undefined`.
* The regular expressions of the source are modelled by hand-written matchers
  over `List Char` that reproduce the JS backtracking semantics (greedy /
  lazy / optional-group preference).  Where a quantified subpattern is
  followed by a pattern that cannot match any character the quantifier
  accepts, maximal munch is the only viable choice and the matcher commits
  to it directly; the genuinely ambiguous spots (`(.+?)`, `(.+)`, `\s+`
  before `(.+?)`) enumerate candidate splits in JS preference order.
* `crypto.createHash('sha256')...digest('hex')` is modelled by an arbitrary
  hash function parameter `H : String → String`.
-/

namespace SqlCliq

/-! ### Character classes (ASCII model of the JS character classes used) -/

def isWsCh (c : Char) : Bool :=
  c.toNat = 32 || c.toNat = 9 || c.toNat = 10 || c.toNat = 13 || c.toNat = 11 || c.toNat = 12

def isDigitCh (c : Char) : Bool := 48 ≤ c.toNat && c.toNat ≤ 57

def isIdentStartCh (c : Char) : Bool :=
  (65 ≤ c.toNat && c.toNat ≤ 90) || (97 ≤ c.toNat && c.toNat ≤ 122) || c.toNat = 95

def isIdentCh (c : Char) : Bool := isIdentStartCh c || isDigitCh c

/-- ASCII `toUpperCase` on one character. -/
def upperCh (c : Char) : Char :=
  if 97 ≤ c.toNat ∧ c.toNat ≤ 122 then Char.ofNat (c.toNat - 32) else c

/-- ASCII `toLowerCase` on one character. -/
def lowerCh (c : Char) : Char :=
  if 65 ≤ c.toNat ∧ c.toNat ≤ 90 then Char.ofNat (c.toNat + 32) else c

/-! ### String helpers -/

/-- JS `String.prototype.trim` (ASCII whitespace model). -/
def trimStr (s : String) : String :=
  ⟨((s.data.dropWhile isWsCh).reverse.dropWhile isWsCh).reverse⟩

/-- JS `toUpperCase` (ASCII model). -/
def upperStr (s : String) : String := ⟨s.data.map upperCh⟩

/-- JS `toLowerCase` (ASCII model). -/
def lowerStr (s : String) : String := ⟨s.data.map lowerCh⟩

/-- JS `String.prototype.startsWith`. -/
def strStartsWith (s p : String) : Bool := p.data.isPrefixOf s.data

/-- Case-insensitive string equality via `toLowerCase`, as the source compares
column names (`a.toLowerCase() === b.toLowerCase()`). -/
def eqNameCI (a b : String) : Bool := lowerStr a == lowerStr b

/-- The integer-like prefix test the source repeats verbatim
(`colTypeUpper.startsWith('INT') || ... ('INTEGER') || ... ('NUMBER')`). -/
def intLikeType (ty : String) : Bool :=
  strStartsWith (upperStr ty) "INT" || strStartsWith (upperStr ty) "INTEGER"
    || strStartsWith (upperStr ty) "NUMBER"

/-- The floating-like prefix test the source repeats verbatim
(`FLOAT`/`DOUBLE`/`REAL`). -/
def floatLikeType (ty : String) : Bool :=
  strStartsWith (upperStr ty) "FLOAT" || strStartsWith (upperStr ty) "DOUBLE"
    || strStartsWith (upperStr ty) "REAL"

/-! ### JS number parsing and printing -/

def digitVal (c : Char) : Nat := c.toNat - 48

def digitsToNat (ds : List Char) : Nat := ds.foldl (fun a c => a * 10 + digitVal c) 0

/-- The longest leading run of decimal digits, as a number; `none` if there is
no leading digit. -/
def parseDigitRun (cs : List Char) : Option Nat :=
  let ds := cs.takeWhile isDigitCh
  if ds.isEmpty then none else some (digitsToNat ds)

/-- JS `parseInt(s, 10)`: skip leading whitespace, optional sign, then the
longest run of decimal digits; `none` models `NaN`. -/
def jsParseInt (s : String) : Option Int :=
  match s.data.dropWhile isWsCh with
  | '-' :: rest => (parseDigitRun rest).map (fun n => -(n : Int))
  | '+' :: rest => (parseDigitRun rest).map (fun n => (n : Int))
  | rest => (parseDigitRun rest).map (fun n => (n : Int))

/-- Exponent suffix of a JS float literal: applies only when at least one
digit follows (`parseFloat("3e") = 3`). -/
def parseExpSuffix (cs : List Char) : Int :=
  match cs with
  | '-' :: r => match parseDigitRun r with | some n => -(n : Int) | none => 0
  | '+' :: r => match parseDigitRun r with | some n => (n : Int) | none => 0
  | r => match parseDigitRun r with | some n => (n : Int) | none => 0

/-- JS `parseFloat`: longest valid prefix `[+-]? (digits [. digits?] | . digits)
([eE] [+-]? digits)?`; `none` models `NaN`.  (`Infinity` is outside the
model.) -/
def jsParseFloat (s : String) : Option Rat :=
  let cs := s.data.dropWhile isWsCh
  let sgn : Rat × List Char :=
    match cs with
    | '-' :: r => (-1, r)
    | '+' :: r => (1, r)
    | r => (1, r)
  let cs1 := sgn.2
  let intDs := cs1.takeWhile isDigitCh
  let rest1 := cs1.drop intDs.length
  let fracPart : List Char × List Char :=
    match rest1 with
    | '.' :: r => (r.takeWhile isDigitCh, (r.takeWhile isDigitCh).length |> r.drop)
    | r => ([], r)
  let fracDs := fracPart.1
  if intDs.isEmpty && fracDs.isEmpty then none
  else
    let mant : Rat := (digitsToNat intDs : Rat) + (digitsToNat fracDs : Rat) / (10 : Rat) ^ fracDs.length
    let e : Int :=
      match fracPart.2 with
      | 'e' :: r => parseExpSuffix r
      | 'E' :: r => parseExpSuffix r
      | _ => 0
    some (sgn.1 * mant * (10 : Rat) ^ e)

/-- Decimal digit characters (big-endian), by fuel-bounded division; the
fuel `n` itself always suffices. -/
def natDigitsGo : Nat → Nat → List Char
  | 0, _ => []
  | fuel + 1, n => if n = 0 then [] else natDigitsGo fuel (n / 10) ++ [Nat.digitChar (n % 10)]

/-- Decimal digit characters of a natural number (big-endian). -/
def natToDigitChars (n : Nat) : List Char :=
  if n = 0 then ['0'] else natDigitsGo n n

/-- JS `String(i)` for an integer-valued number. -/
def intToDecStr (i : Int) : String :=
  if i < 0 then ⟨'-' :: natToDigitChars i.natAbs⟩ else ⟨natToDigitChars i.natAbs⟩

/-- Smallest exponent `k` with `q * 10^k` integral (bounded search; every
number the engine produces is a finite decimal, for which this succeeds). -/
def decExp (q : Rat) : Option Nat :=
  (List.range 40).find? (fun k => (q * (10 : Rat) ^ k).den == 1)

/-- JS `String(x)` for a number, restricted to the finite decimals the engine
can produce (plain positional notation; JS exponential rendering of extreme
magnitudes is outside the model). -/
def jsNumToString (q : Rat) : String :=
  if q.den = 1 then intToDecStr q.num
  else
    match decExp q with
    | some k =>
      let n := ((q * (10 : Rat) ^ k).num).natAbs
      let ds := natToDigitChars n
      let ds := if k + 1 ≤ ds.length then ds else List.replicate (k + 1 - ds.length) '0' ++ ds
      ⟨(if q.num < 0 then ['-'] else []) ++ ds.take (ds.length - k) ++ '.' :: ds.drop (ds.length - k)⟩
    | none => "?"

/-! ### Runtime values, rows, stores -/

/-- A JS runtime value as stored in a row: number, string, `null`, or
`undefined` (reading an absent object key). -/
inductive JsVal where
  | num (q : Rat)
  | str (s : String)
  | null
  | undefVal
deriving Repr, DecidableEq

/-- JS `String(v)`. -/
def jsToString : JsVal → String
  | .num q => jsNumToString q
  | .str s => s
  | .null => "null"
  | .undefVal => "undefined"

/-- A row object: ordered string-keyed map. -/
abbrev Row := List (String × JsVal)

/-- Reading `row[k]`: `undefined` when the key is absent. -/
def rowGet (r : Row) (k : String) : JsVal :=
  match r.find? (fun p => p.1 == k) with
  | some p => p.2
  | none => .undefVal

/-- JS assignment `row[k] = v`: overwrite in place, or append a new key. -/
def rowSet (r : Row) (k : String) (v : JsVal) : Row :=
  if (r.find? (fun p => p.1 == k)).isSome then
    r.map (fun p => if p.1 == k then (k, v) else p)
  else r ++ [(k, v)]

structure ColumnDefinition where
  name : String
  type : String
deriving Repr, DecidableEq

structure TableSchema where
  columnsDefinition : String
  parsedColumns : List ColumnDefinition
  data : List Row
deriving Repr, DecidableEq

structure DatabaseSchema where
  tables : List (String × TableSchema)
  passwordHash : Option String := none
deriving Repr, DecidableEq

abbrev DatabasesStructure := List (String × DatabaseSchema)

/-- Ordered string-keyed map read (JS object property access). -/
def alGet (l : List (String × β)) (k : String) : Option β :=
  (l.find? (fun p => p.1 == k)).map (fun p => p.2)

/-- Ordered string-keyed map write: spread-with-key / JS assignment semantics
(existing key keeps its position, fresh key appends). -/
def alSet (l : List (String × β)) (k : String) (v : β) : List (String × β) :=
  if (l.find? (fun p => p.1 == k)).isSome then
    l.map (fun p => if p.1 == k then (k, v) else p)
  else l ++ [(k, v)]

/-- JS `delete obj[k]`. -/
def alRemove (l : List (String × β)) (k : String) : List (String × β) :=
  l.filter (fun p => p.1 != k)

/-! ### Regex-style matching helpers

Each source regex is modelled by a matcher over `List Char`.  Quantifiers
whose follower cannot match a character of the quantified class are
deterministic (maximal munch); the ambiguous quantifiers enumerate splits in
JS preference order. -/

/-- Consume a literal keyword case-insensitively (the `/i` flag). -/
def matchCI : List Char → List Char → Option (List Char)
  | [], cs => some cs
  | k :: ks, c :: cs => if upperCh c == upperCh k then matchCI ks cs else none
  | _ :: _, [] => none

/-- `\s+` before a token that cannot start with whitespace: maximal munch. -/
def ws1 (cs : List Char) : Option (List Char) :=
  match cs with
  | c :: r => if isWsCh c then some (r.dropWhile isWsCh) else none
  | [] => none

/-- `\s*` before a token that cannot start with whitespace. -/
def ws0 (cs : List Char) : List Char := cs.dropWhile isWsCh

/-- The tail pattern `\s*;?$`. -/
def endOfCmd (cs : List Char) : Bool :=
  match cs.dropWhile isWsCh with
  | [] => true
  | [c] => c == ';'
  | _ => false

/-- `([a-zA-Z_][a-zA-Z0-9_]*)`: greedy, and deterministic in this source
because an identifier character can never match what follows the group. -/
def identSplit (cs : List Char) : Option (List Char × List Char) :=
  match cs with
  | c :: r =>
    if isIdentStartCh c then
      let t := r.takeWhile isIdentCh
      some (c :: t, r.drop t.length)
    else none
  | [] => none

def splitsUpTo (cs : List Char) (lens : List Nat) : List (List Char × List Char) :=
  lens.map (fun k => (cs.take k, cs.drop k))

/-- Candidate splits for a lazy `(.+?)` (`.` excludes newline): shortest
first, per JS lazy preference. -/
def lazyDotSplits (cs : List Char) : List (List Char × List Char) :=
  splitsUpTo cs ((List.range (cs.takeWhile (fun c => c != '\n')).length).map (· + 1))

/-- Candidate splits for a greedy one-or-more quantifier over a character
class: longest first, per JS greedy preference. -/
def greedySplits1 (p : Char → Bool) (cs : List Char) : List (List Char × List Char) :=
  splitsUpTo cs (((List.range (cs.takeWhile p).length).map (· + 1)).reverse)

/-! ### Column-definition parsing (source lines 55–94) -/

/-- The lookahead `[^()]*\)` succeeds exactly when the first parenthesis
character in the remainder is `)`. -/
def lookNoParenThenClose (cs : List Char) : Bool :=
  match cs.dropWhile (fun c => c != '(' && c != ')') with
  | ')' :: _ => true
  | _ => false

/-- `definitionStr.split(/,(?![^()]*\))/g)`: split at every comma whose
negative lookahead holds, scanning left to right. -/
def splitDefsGo : List Char → List Char → List String
  | [], acc => [⟨acc.reverse⟩]
  | c :: rest, acc =>
    if c == ',' && !(lookNoParenThenClose rest) then
      ⟨acc.reverse⟩ :: splitDefsGo rest []
    else splitDefsGo rest (c :: acc)

def splitDefs (cs : List Char) : List String := splitDefsGo cs []

def constraintKeywords : List String :=
  ["PRIMARY KEY", "FOREIGN KEY", "UNIQUE", "CHECK", "CONSTRAINT"]

/-- The fragment regex `^([a-zA-Z_][a-zA-Z0-9_]*)\s+(.+)$`.  It is applied to
trimmed fragments, on which the greedy quantifiers are deterministic; a
newline in the remainder makes `.+` fail. -/
def fragNameType (cs : List Char) : Option (String × String) :=
  match identSplit cs with
  | some (name, rest) =>
    match ws1 rest with
    | some rest2 =>
      if rest2.isEmpty || !(rest2.all (fun c => c != '\n')) then none
      else some (⟨name⟩, ⟨rest2⟩)
    | none => none
  | none => none

/-- `parseColumnDefinitions` (source lines 55–89): split respecting the
lookahead, drop table-level constraint fragments, parse `name type`
fragments, silently drop the rest. -/
def parseColumnDefinitions (definitionStr : String) : List ColumnDefinition :=
  if definitionStr == "" then []
  else
    (splitDefs definitionStr.data).foldr (fun d acc =>
      let trimmedDef := trimStr d
      if trimmedDef == "" then acc
      else if constraintKeywords.any (fun kw => strStartsWith (upperStr trimmedDef) kw) then acc
      else
        match fragNameType trimmedDef.data with
        | some (n, t) => ColumnDefinition.mk (trimStr n) (upperStr (trimStr t)) :: acc
        | none => acc) []

/-- `isValidIdentifier` (source line 92): `^[a-zA-Z_][a-zA-Z0-9_]*$`. -/
def isValidIdentifier (s : String) : Bool :=
  match s.data with
  | [] => false
  | c :: r => isIdentStartCh c && r.all isIdentCh

/-! ### Password hashing (source lines 5–13), modulo the SHA-256 primitive -/

def hashPassword (H : String → String) (password : String) : String :=
  if password == "" then "" else H password

def verifyPassword (H : String → String) (password storedHash : String) : Bool :=
  if password == "" || storedHash == "" then false
  else hashPassword H password == storedHash

/-! ### CREATE DATABASE (source lines 97–138) -/

/-- Matcher for
`^CREATE\s+DATABASE\s+([a-zA-Z_][a-zA-Z0-9_]*)(?:\s+WITH\s+PASSWORD\s+'([^']*)')?\s*;?$/i`. -/
def parseCreateDb (s : String) : Option (String × Option String) := do
  let r ← matchCI "CREATE".data s.data
  let r ← ws1 r
  let r ← matchCI "DATABASE".data r
  let r ← ws1 r
  let (name, r) ← identSplit r
  let present : Option (String × List Char) := do
    let r1 ← ws1 r
    let r1 ← matchCI "WITH".data r1
    let r1 ← ws1 r1
    let r1 ← matchCI "PASSWORD".data r1
    let r1 ← ws1 r1
    match r1 with
    | '\'' :: r2 =>
      let pw := r2.takeWhile (fun c => c != '\'')
      match r2.drop pw.length with
      | '\'' :: r3 => some (⟨pw⟩, r3)
      | _ => none
    | _ => none
  match present with
  | some (pw, r4) =>
    if endOfCmd r4 then some (⟨name⟩, some pw)
    else if endOfCmd r then some (⟨name⟩, none)
    else none
  | none => if endOfCmd r then some (⟨name⟩, none) else none

structure CreateDbResult where
  newDatabases : DatabasesStructure
  output : String
deriving Repr, DecidableEq

/-- Body of `handleCreateDatabase` after the command regex has matched;
`password = none` models an absent `WITH PASSWORD` clause. -/
def createDatabaseCore (H : String → String) (dbName : String) (password : Option String)
    (databases : DatabasesStructure) : CreateDbResult :=
  if !(dbName != "" && isValidIdentifier dbName) then
    ⟨databases, "Error: Invalid database name '" ++ dbName ++ "'. Names must start with a letter or underscore, followed by letters, numbers, or underscores."⟩
  else if (alGet databases dbName).isSome then
    ⟨databases, "Error: Database '" ++ dbName ++ "' already exists."⟩
  else if password.getD "" != "" && (password.getD "").length < 4 then
    ⟨databases, "Error: Password for database '" ++ dbName ++ "' must be at least 4 characters long."⟩
  else
    let passwordHash : Option String :=
      if password.getD "" != "" then some (hashPassword H (password.getD "")) else none
    let isProt := passwordHash.getD "" != ""
    let newDbSchema : DatabaseSchema :=
      { tables := [], passwordHash := if isProt then passwordHash else none }
    ⟨alSet databases dbName newDbSchema,
      if isProt then "Database '" ++ dbName ++ "' created successfully." ++ " It is password protected."
      else "Database '" ++ dbName ++ "' created successfully."⟩

def handleCreateDatabase (H : String → String) (fullCommand : String)
    (databases : DatabasesStructure) : CreateDbResult :=
  match parseCreateDb fullCommand with
  | none => ⟨databases, "Error: Invalid CREATE DATABASE syntax. Expected: CREATE DATABASE <db_name> [WITH PASSWORD '<password>'];"⟩
  | some (dbName, password) => createDatabaseCore H dbName password databases

/-! ### USE and the password sub-protocol (source lines 148–184) -/

structure UseResult where
  newCurrentDb : Option (Option String) := none
  output : List String
  requiresPasswordInput : Bool := false
  dbToAuth : Option String := none
deriving Repr, DecidableEq

def handleUseDatabase (dbName : String) (databases : DatabasesStructure) : UseResult :=
  match alGet databases dbName with
  | none => { output := ["Error: Unknown database '" ++ dbName ++ "'."] }
  | some dbSchema =>
    if dbSchema.passwordHash.getD "" != "" then
      { output := ["Password required for database '" ++ dbName ++ "'.",
                   "Enter password on the next line:"],
        requiresPasswordInput := true, dbToAuth := some dbName }
    else
      { newCurrentDb := some (some dbName),
        output := ["Database changed to '" ++ dbName ++ "'."] }

structure PasswordAttemptResult where
  newCurrentDb : Option String
  output : String
deriving Repr, DecidableEq

def handlePasswordAttempt (H : String → String) (dbName enteredPassword : String)
    (databases : DatabasesStructure) : PasswordAttemptResult :=
  match alGet databases dbName with
  | none => ⟨none, "Error: Database '" ++ dbName ++ "' is not password protected or does not exist."⟩
  | some dbSchema =>
    if dbSchema.passwordHash.getD "" == "" then
      ⟨none, "Error: Database '" ++ dbName ++ "' is not password protected or does not exist."⟩
    else if verifyPassword H enteredPassword (dbSchema.passwordHash.getD "") then
      ⟨some dbName, "Access granted. Database changed to '" ++ dbName ++ "'."⟩
    else ⟨none, "Error: Invalid password for database '" ++ dbName ++ "'. Access denied."⟩

/-! ### The WHERE / SET value pattern
`([a-zA-Z_][a-zA-Z0-9_]*)\s*=\s*(?:'([^']*)'|"([^"]*)"|’([^’]*)’|(\S+))`,
used as an unanchored search (source lines 400 and 705). -/

/-- One quoted alternative `q([^q]*)q`. -/
def quotedAlt (q : Char) (cs : List Char) : Option String :=
  match cs with
  | c :: r =>
    if c == q then
      let v := r.takeWhile (fun x => x != q)
      match r.drop v.length with
      | c2 :: _ => if c2 == q then some ⟨v⟩ else none
      | [] => none
    else none
  | [] => none

/-- The value alternation, in JS preference order, falling back to `(\S+)`. -/
def valueAlt (cs : List Char) : Option String :=
  match quotedAlt '\'' cs with
  | some v => some v
  | none =>
    match quotedAlt '\"' cs with
    | some v => some v
    | none =>
      match quotedAlt '’' cs with
      | some v => some v
      | none =>
        let v := cs.takeWhile (fun c => !(isWsCh c))
        if v.isEmpty then none else some ⟨v⟩

/-- The pattern attempted at one start position. -/
def eqPairHere (cs : List Char) : Option (String × String) := do
  let (name, r) ← identSplit cs
  match ws0 r with
  | '=' :: r1 => (valueAlt (ws0 r1)).map (fun v => (⟨name⟩, v))
  | _ => none

/-- Unanchored leftmost search of the pattern. -/
def searchEqPair : List Char → Option (String × String)
  | [] => none
  | c :: rest =>
    match eqPairHere (c :: rest) with
    | some r => some r
    | none => searchEqPair rest

def joinComma : List String → String
  | [] => ""
  | [s] => s
  | s :: rest => s ++ ", " ++ joinComma rest

instance {ε α : Type} [DecidableEq ε] [DecidableEq α] : DecidableEq (Except ε α) := fun x y =>
  match x, y with
  | .ok a, .ok b => if h : a = b then isTrue (by rw [h]) else isFalse (by simp [h])
  | .error a, .error b => if h : a = b then isTrue (by rw [h]) else isFalse (by simp [h])
  | .ok _, .error _ => isFalse (by simp)
  | .error _, .ok _ => isFalse (by simp)

/-! ### Predicate compiler (source lines 393–446) -/

/-- The compiled WHERE predicate, defunctionalized: the source closure
captures the target column name and the coerced comparison value. -/
inductive WherePred where
  | all
  | eq (colName : String) (filterValue : JsVal)
deriving Repr, DecidableEq

/-- The closure body (source lines 432–442): numeric equality when both
sides are numbers, case-insensitive equality when both are strings, strict
(`===`) equality otherwise. -/
def evalWherePred : WherePred → Row → Bool
  | .all, _ => true
  | .eq name v, row =>
    let rowValue := rowGet row name
    match v, rowValue with
    | .num a, .num b => b == a
    | .str a, .str b => lowerStr b == lowerStr a
    | _, _ => rowValue == v

def parseWhereClause (whereClauseStr : Option String) (table : TableSchema) :
    Except String WherePred :=
  match whereClauseStr with
  | none => .ok .all
  | some w =>
    match searchEqPair w.data with
    | none => .error "Error: Unsupported WHERE clause format. Use 'column = value' or 'column = \"text value\"' or column = 'text value'."
    | some (colName, filterValueStr) =>
      match table.parsedColumns.find? (fun c => eqNameCI c.name colName) with
      | none => .error ("Error: Column '" ++ colName ++ "' not found in WHERE clause for table. Available columns: " ++ joinComma (table.parsedColumns.map (fun c => c.name)) ++ ".")
      | some colDef =>
        if upperStr filterValueStr == "NULL" then .ok (.eq colDef.name .null)
        else
          if intLikeType colDef.type then
            match jsParseInt filterValueStr with
            | some i => .ok (.eq colDef.name (.num (i : Rat)))
            | none => .error ("Error: Invalid number for comparison in WHERE clause for column '" ++ colName ++ "'. Value was '" ++ filterValueStr ++ "'.")
          else if floatLikeType colDef.type then
            match jsParseFloat filterValueStr with
            | some q => .ok (.eq colDef.name (.num q))
            | none => .error ("Error: Invalid float for comparison in WHERE clause for column '" ++ colName ++ "'. Value was '" ++ filterValueStr ++ "'.")
          else .ok (.eq colDef.name (.str filterValueStr))

/-! ### CREATE TABLE (source lines 187–242) -/

/-- Matcher for `^CREATE\s+TABLE\s+([a-zA-Z_][a-zA-Z0-9_]*)\s*\((.+)\)\s*;?$/i`. -/
def parseCreateTable (s : String) : Option (String × String) := do
  let r ← matchCI "CREATE".data s.data
  let r ← ws1 r
  let r ← matchCI "TABLE".data r
  let r ← ws1 r
  let (name, r) ← identSplit r
  match ws0 r with
  | '(' :: r1 =>
    (greedySplits1 (fun c => c != '\n') r1).findSome? (fun g =>
      match g.2 with
      | ')' :: r2 => if endOfCmd r2 then some ((⟨name⟩ : String), (⟨g.1⟩ : String)) else none
      | _ => none)
  | _ => none

def handleCreateTable (fullCommand : String) (currentDbName : Option String)
    (databases : DatabasesStructure) : CreateDbResult :=
  match currentDbName with
  | none => ⟨databases, "Error: No database selected. Use 'USE <database_name>;'."⟩
  | some cdb =>
    match parseCreateTable fullCommand with
    | none => ⟨databases, "Error: Invalid CREATE TABLE syntax. Expected: CREATE TABLE table_name (column1_def, column2_def, ...);"⟩
    | some (tableName, columnsDefinitionStr) =>
      if !(tableName != "" && isValidIdentifier tableName) then
        ⟨databases, "Error: Invalid table name '" ++ tableName ++ "'."⟩
      else if ((alGet databases cdb).bind (fun db => alGet db.tables tableName)).isSome then
        ⟨databases, "Error: Table '" ++ tableName ++ "' already exists in database '" ++ cdb ++ "'."⟩
      else
        let trimmed := trimStr columnsDefinitionStr
        let parsedColumns := parseColumnDefinitions trimmed
        let onlyConstraintsOrEmpty := (splitDefs trimmed.data).all (fun d =>
          let td := upperStr (trimStr d)
          td == "" || constraintKeywords.any (fun kw => strStartsWith td kw))
        if parsedColumns.isEmpty && trimmed != "" && !onlyConstraintsOrEmpty then
          ⟨databases, "Error: Could not parse any valid column definitions for table '" ++ tableName ++ "'. Ensure format is 'colName TYPE, ...'. Problem with: \"" ++ trimmed ++ "\""⟩
        else if parsedColumns.any (fun pc => pc.name == "" || pc.type == "") then
          ⟨databases, "Error: Invalid column definition syntax in '" ++ trimmed ++ "'. Each column must have a name and a type."⟩
        else
          let newTable : TableSchema := ⟨trimmed, parsedColumns, []⟩
          let updatedDb : DatabaseSchema :=
            { tables := alSet (((alGet databases cdb).map DatabaseSchema.tables).getD []) tableName newTable,
              passwordHash := ((alGet databases cdb).map DatabaseSchema.passwordHash).getD none }
          ⟨alSet databases cdb updatedDb, "Table '" ++ tableName ++ "' created successfully in database '" ++ cdb ++ "'."⟩

/-! ### INSERT (source lines 286–390) -/

/-- Matcher for
`^INSERT\s+INTO\s+([a-zA-Z_][a-zA-Z0-9_]*)\s*(?:\(([^)]+)\))?\s*VALUES\s*\(([^)]+)\)\s*;?/i`
(note: not anchored at the end, so trailing text after the value list is
accepted and ignored). -/
def parseInsert (s : String) : Option (String × Option String × String) := do
  let r ← matchCI "INSERT".data s.data
  let r ← ws1 r
  let r ← matchCI "INTO".data r
  let r ← ws1 r
  let (name, r) ← identSplit r
  let r := ws0 r
  let afterCols : Option (String × List Char) :=
    match r with
    | '(' :: r1 =>
      let inner := r1.takeWhile (fun c => c != ')')
      if inner.isEmpty then none
      else
        match r1.drop inner.length with
        | ')' :: r2 => some ((⟨inner⟩ : String), r2)
        | _ => none
    | _ => none
  let cont : Option String → List Char → Option (String × Option String × String) :=
    fun cols r2 => do
      let r3 ← matchCI "VALUES".data (ws0 r2)
      match ws0 r3 with
      | '(' :: r4 =>
        let vals := r4.takeWhile (fun c => c != ')')
        if vals.isEmpty then none
        else
          match r4.drop vals.length with
          | ')' :: _ => some ((⟨name⟩ : String), cols, (⟨vals⟩ : String))
          | _ => none
      | _ => none
  match afterCols with
  | some (cols, r2) =>
    match cont (some cols) r2 with
    | some out => some out
    | none => cont none r
  | none => cont none r

/-- Result shape `{ newDatabases?, output: string }` shared by the mutating
handlers whose TS return types are structurally identical (INSERT, UPDATE,
DELETE, DROP TABLE, ALTER, RENAME). -/
structure MutResult where
  newDatabases : Option DatabasesStructure := none
  output : String
deriving Repr, DecidableEq

/-- JS `split(',')`, keeping empty pieces. -/
def splitCommasGo : List Char → List Char → List String
  | [], acc => [⟨acc.reverse⟩]
  | c :: rest, acc =>
    if c == ',' then ⟨acc.reverse⟩ :: splitCommasGo rest []
    else splitCommasGo rest (c :: acc)

def splitCommas (cs : List Char) : List String := splitCommasGo cs []

/-- Per-token processing of the INSERT value list (source lines 307–317):
trim, `NULL`, strip a matching pair of single/double/smart quotes (JS
`substring(1, len-1)` leaves one-character tokens unchanged), else the bare
token.  `none` models JS `null`. -/
def parseValueToken (v : String) : Option String :=
  let t := trimStr v
  if upperStr t == "NULL" then none
  else
    let cs := t.data
    let strip := fun (q : Char) =>
      match cs with
      | c :: (_ :: _) => c == q && cs.getLast? == some q
      | _ => false
    if strip '\'' || strip '\"' || strip '’' then some (⟨(cs.drop 1).dropLast⟩ : String)
    else some t

/-- The shared INSERT/UPDATE value coercion for a declared column type
(source lines 350–365 and 723–732). -/
def coerceByType (colType raw colNameForMsg : String) : Except String JsVal :=
  if intLikeType colType then
    match jsParseInt raw with
    | some i => .ok (.num (i : Rat))
    | none => .error ("Error: Invalid integer value '" ++ raw ++ "' for column '" ++ colNameForMsg ++ "'.")
  else if floatLikeType colType then
    match jsParseFloat raw with
    | some q => .ok (.num q)
    | none => .error ("Error: Invalid float value '" ++ raw ++ "' for column '" ++ colNameForMsg ++ "'.")
  else .ok (.str raw)

/-- INSERT's explicit column list resolution (source lines 321–330). -/
def resolveColumns (names : List String) (table : TableSchema) (tableName : String) :
    Except String (List ColumnDefinition) :=
  match names with
  | [] => .ok []
  | n :: rest =>
    match table.parsedColumns.find? (fun c => eqNameCI c.name n) with
    | none => .error ("Error: Column '" ++ n ++ "' not found in table '" ++ tableName ++ "'.")
    | some colDef => (resolveColumns rest table tableName).map (fun l => colDef :: l)

/-- INSERT's row-building loop (source lines 339–368). -/
def buildRow : List ColumnDefinition → List (Option String) → Row → Except String Row
  | [], _, acc => .ok acc
  | colDef :: cols, v :: vs, acc =>
    match v with
    | none => buildRow cols vs (rowSet acc colDef.name .null)
    | some raw =>
      match coerceByType colDef.type raw colDef.name with
      | .ok val => buildRow cols vs (rowSet acc colDef.name val)
      | .error e => .error e
  | _ :: _, [], acc => .ok acc

def handleInsertData (fullCommand : String) (currentDbName : Option String)
    (databases : DatabasesStructure) : MutResult :=
  match currentDbName.bind (fun c => (alGet databases c).map (fun db => (c, db))) with
  | none => { output := "Error: No database selected or database does not exist. Use 'USE <database_name>;'." }
  | some (cdb, db) =>
    match parseInsert fullCommand with
    | none => { output := "Error: Invalid INSERT syntax. Expected: INSERT INTO table_name [(col1, col2, ...)] VALUES (val1, val2, ...);" }
    | some (tableName, columnNamesStr, valuesStr) =>
      match alGet db.tables tableName with
      | none => { output := "Error: Table '" ++ tableName ++ "' does not exist in database '" ++ cdb ++ "'." }
      | some table =>
        let values := (splitCommas valuesStr.data).map parseValueToken
        let targetColsE : Except String (List ColumnDefinition) :=
          match columnNamesStr with
          | some cn => resolveColumns ((splitCommas cn.data).map trimStr) table tableName
          | none => .ok table.parsedColumns
        match targetColsE with
        | .error e => { output := e }
        | .ok targetColumns =>
          if values.length != targetColumns.length then
            { output := "Error: Column count (" ++ intToDecStr (targetColumns.length : Int) ++ ") does not match value count (" ++ intToDecStr (values.length : Int) ++ "). Expected " ++ intToDecStr (targetColumns.length : Int) ++ " values for columns: " ++ joinComma (targetColumns.map (fun c => c.name)) ++ "." }
          else
            match buildRow targetColumns values [] with
            | .error e => { output := e }
            | .ok newRow =>
              let updatedTable : TableSchema := { table with data := table.data ++ [newRow] }
              let updatedDb : DatabaseSchema := { db with tables := alSet db.tables tableName updatedTable }
              { newDatabases := some (alSet databases cdb updatedDb),
                output := "1 row inserted into '" ++ tableName ++ "'." }

/-! ### SELECT (source lines 449–553)

Matcher for
`^SELECT\s+(.+?)\s+FROM\s+([a-zA-Z_][a-zA-Z0-9_]*)(?:\s+WHERE\s+(.+?))?(?:\s+ORDER\s+BY\s+([a-zA-Z_][a-zA-Z0-9_]*)(?:\s+(ASC|DESC))?)?(?:\s+LIMIT\s+(\d+))?\s*;?$/i`.
The optional groups are tried present-first, the lazy groups shortest-first,
exactly as the JS engine backtracks. -/

structure SelectParts where
  columnsStr : String
  tableName : String
  whereClauseStr : Option String := none
  orderByColumnName : Option String := none
  orderByDirectionStr : Option String := none
  limitCountStr : Option String := none
deriving Repr, DecidableEq

/-- `(?:\s+LIMIT\s+(\d+))?\s*;?$`, present-first. -/
def selectTailLimit (cs : List Char) : Option (Option String) :=
  let present : Option (Option String) := do
    let r ← ws1 cs
    let r ← matchCI "LIMIT".data r
    let r ← ws1 r
    let ds := r.takeWhile isDigitCh
    if ds.isEmpty then none
    else if endOfCmd (r.drop ds.length) then some (some (⟨ds⟩ : String)) else none
  match present with
  | some out => some out
  | none => if endOfCmd cs then some none else none

/-- `(?:\s+ORDER\s+BY\s+(ID)(?:\s+(ASC|DESC))?)?` followed by the LIMIT
tail, present-first; the direction capture keeps the characters as typed. -/
def selectTailOrder (cs : List Char) :
    Option ((Option String × Option String) × Option String) :=
  let present : Option ((Option String × Option String) × Option String) := do
    let r ← ws1 cs
    let r ← matchCI "ORDER".data r
    let r ← ws1 r
    let r ← matchCI "BY".data r
    let r ← ws1 r
    let (col, r) ← identSplit r
    let dirCont : Option (Option String × List Char) :=
      (ws1 r).bind (fun r1 =>
        match matchCI "ASC".data r1 with
        | some r2 => some (some (⟨r1.take 3⟩ : String), r2)
        | none =>
          match matchCI "DESC".data r1 with
          | some r2 => some (some (⟨r1.take 4⟩ : String), r2)
          | none => none)
    match dirCont with
    | some (dir, r2) =>
      match selectTailLimit r2 with
      | some lim => some ((some (⟨col⟩ : String), dir), lim)
      | none => (selectTailLimit r).map (fun lim => ((some (⟨col⟩ : String), none), lim))
    | none => (selectTailLimit r).map (fun lim => ((some (⟨col⟩ : String), none), lim))
  match present with
  | some out => some out
  | none => (selectTailLimit cs).map (fun lim => ((none, none), lim))

/-- `(?:\s+WHERE\s+(.+?))?` followed by the ORDER BY / LIMIT tails,
present-first, the lazy `(.+?)` shortest-first. -/
def selectTailWhere (cs : List Char) :
    Option (Option String × (Option String × Option String) × Option String) :=
  let present : Option (Option String × (Option String × Option String) × Option String) := do
    let r ← ws1 cs
    let r ← matchCI "WHERE".data r
    (greedySplits1 isWsCh r).findSome? (fun w =>
      (lazyDotSplits w.2).findSome? (fun g =>
        (selectTailOrder g.2).map (fun ol => (some (⟨g.1⟩ : String), ol))))
  match present with
  | some out => some out
  | none => (selectTailOrder cs).map (fun ol => (none, ol))

def parseSelect (s : String) : Option SelectParts := do
  let r ← matchCI "SELECT".data s.data
  (greedySplits1 isWsCh r).findSome? (fun w =>
    (lazyDotSplits w.2).findSome? (fun g =>
      (ws1 g.2).bind (fun r2 =>
        (matchCI "FROM".data r2).bind (fun r3 =>
          (ws1 r3).bind (fun r4 =>
            (identSplit r4).bind (fun nr =>
              (selectTailWhere nr.2).map (fun wol =>
                { columnsStr := (⟨g.1⟩ : String)
                  tableName := (⟨nr.1⟩ : String)
                  whereClauseStr := wol.1
                  orderByColumnName := wol.2.1.1
                  orderByDirectionStr := wol.2.1.2
                  limitCountStr := wol.2.2 })))))))

/-- Numeric leg of the ORDER BY comparator: the converted values are numbers
with `none` modelling `NaN` (source lines 505–512). -/
def cmpOptRat (desc : Bool) (a b : Option Rat) : Int :=
  match a, b with
  | none, none => 0
  | none, some _ => if desc then 1 else -1
  | some _, none => if desc then -1 else 1
  | some x, some y =>
    if x < y then (if desc then 1 else -1)
    else if y < x then (if desc then -1 else 1)
    else 0

/-- JS `<` on strings: lexicographic comparison of the character sequences. -/
def strLtB : List Char → List Char → Bool
  | [], [] => false
  | [], _ :: _ => true
  | _ :: _, [] => false
  | a :: as, b :: bs => if a = b then strLtB as bs else decide (a < b)

/-- Textual leg of the ORDER BY comparator (source lines 510–512). -/
def cmpStrCI (desc : Bool) (x y : String) : Int :=
  if strLtB x.data y.data then (if desc then 1 else -1)
  else if strLtB y.data x.data then (if desc then -1 else 1)
  else 0

/-- The ORDER BY comparator (source lines 485–513). -/
def sortCompare (col : ColumnDefinition) (desc : Bool) (rowA rowB : Row) : Int :=
  let valA := rowGet rowA col.name
  let valB := rowGet rowB col.name
  if valA == JsVal.null && !(valB == JsVal.null) then (if desc then 1 else -1)
  else if !(valA == JsVal.null) && valB == JsVal.null then (if desc then -1 else 1)
  else if valA == JsVal.null && valB == JsVal.null then 0
  else
    if intLikeType col.type then
      cmpOptRat desc ((jsParseInt (jsToString valA)).map (fun i => (i : Rat)))
                     ((jsParseInt (jsToString valB)).map (fun i => (i : Rat)))
    else if floatLikeType col.type then
      cmpOptRat desc (jsParseFloat (jsToString valA)) (jsParseFloat (jsToString valB))
    else
      cmpStrCI desc (lowerStr (jsToString valA)) (lowerStr (jsToString valB))

/-- Stable insertion of `x` after every element that strictly precedes it. -/
def insertBy (cmp : α → α → Int) (x : α) : List α → List α
  | [] => [x]
  | y :: ys => if cmp y x < 0 then y :: insertBy cmp x ys else x :: y :: ys

/-- Stable insertion sort.  For a consistent comparator, `sorted + stable`
determines the output uniquely, so this models the ES2019-stable
`Array.prototype.sort` used at source line 485. -/
def insSortBy (cmp : α → α → Int) : List α → List α
  | [] => []
  | x :: xs => insertBy cmp x (insSortBy cmp xs)

def sortRows (col : ColumnDefinition) (desc : Bool) (rows : List Row) : List Row :=
  insSortBy (sortCompare col desc) rows

/-! ### Tabular rendering (source lines 23–52) -/

def joinSep (sep : String) : List String → String
  | [] => ""
  | [s] => s
  | s :: rest => s ++ sep ++ joinSep sep rest

/-- JS `padEnd` with spaces (no-op when already wide enough). -/
def padEnd (s : String) (w : Nat) : String :=
  ⟨s.data ++ List.replicate (w - s.data.length) ' '⟩

def repChar (c : Char) (n : Nat) : String := ⟨List.replicate n c⟩

/-- `formatTableOutput` (source lines 23–52). -/
def formatTableOutput (headers : List String) (rows : List (List String)) : List String :=
  if rows.isEmpty && headers.length == 1 && !(headers.headD "" == "Field Definition")
      && !(strStartsWith (headers.headD "") "Tables_in_") then
    ["Empty set"]
  else if rows.isEmpty && headers.length == 1 && strStartsWith (headers.headD "") "Tables_in_" then
    ["Empty set (0 tables in " ++ (⟨(headers.headD "").data.drop "Tables_in_".length⟩ : String) ++ ")"]
  else if rows.isEmpty && 0 < headers.length && headers.headD "" == "Database" then
    ["Empty set (0 databases)"]
  else if rows.isEmpty then
    if 0 < headers.length && headers.headD "" == "Field" then
      ["Table has no columns or definition is malformed."]
    else ["Empty set"]
  else
    let colWidths := headers.enum.map (fun hi =>
      (rows.map (fun row => (row.getD hi.1 "").length)).foldl max hi.2.length)
    let formatRow := fun (row : List String) =>
      "| " ++ joinSep " | " (row.enum.map (fun ci => padEnd ci.2 (colWidths.getD ci.1 0))) ++ " |"
    let separator := "+" ++ joinSep "+" (colWidths.map (fun w => repChar '-' (w + 2))) ++ "+"
    [separator, formatRow headers, separator] ++ rows.map formatRow ++ [separator]

/-! ### SELECT handler -/

structure SelectResult where
  output : List String
deriving Repr, DecidableEq

/-- LIMIT application (source lines 516–523). -/
def applyLimit (limitCountStr : Option String) (processed : List Row) : List Row :=
  match limitCountStr with
  | some ls =>
    match jsParseInt ls with
    | some l => if 0 < l then processed.take l.toNat else if l = 0 then [] else processed
    | none => processed
  | none => processed

/-- LIMIT application and rendering (source lines 516–552). -/
def selectFinish (parts : SelectParts) (tableName : String) (table : TableSchema)
    (processed : List Row) : List String :=
  let processedData := applyLimit parts.limitCountStr processed
  if processedData.isEmpty then ["Empty set"]
  else
    let requestedColumns :=
      if trimStr parts.columnsStr == "*" then table.parsedColumns.map (fun c => c.name)
      else (splitCommas parts.columnsStr.data).map trimStr
    let headers := (requestedColumns.filter (fun rc =>
        table.parsedColumns.any (fun pc => eqNameCI pc.name rc))).map (fun rc =>
        match table.parsedColumns.find? (fun pc => eqNameCI pc.name rc) with
        | some pc => pc.name
        | none => rc)
    if headers.isEmpty && !(trimStr parts.columnsStr == "*") then
      ["Error: None of the requested columns (" ++ parts.columnsStr ++ ") found in table '"
        ++ tableName ++ "'. Available: " ++ joinComma (table.parsedColumns.map (fun c => c.name))]
    else
      let finalRows := processedData.map (fun row =>
        headers.map (fun h =>
          let v := rowGet row h
          if v == JsVal.null then "NULL" else jsToString v))
      formatTableOutput headers finalRows

/-- Body of `handleSelectData` after the regex matched and the table was
found (source lines 471–552). -/
def selectOnTable (parts : SelectParts) (tableName : String) (table : TableSchema) : List String :=
  match parseWhereClause parts.whereClauseStr table with
  | .error e => [e]
  | .ok pred =>
    let filtered := table.data.filter (evalWherePred pred)
    match parts.orderByColumnName with
    | some obc =>
      match table.parsedColumns.find? (fun c => eqNameCI c.name obc) with
      | none => ["Error: Column '" ++ obc ++ "' not found in table '" ++ tableName ++ "' for ORDER BY clause."]
      | some col =>
        let desc := upperStr (parts.orderByDirectionStr.getD "") == "DESC"
        selectFinish parts tableName table (sortRows col desc filtered)
    | none => selectFinish parts tableName table filtered

def handleSelectData (fullCommand : String) (currentDbName : Option String)
    (databases : DatabasesStructure) : SelectResult :=
  match currentDbName.bind (fun c => (alGet databases c).map (fun db => (c, db))) with
  | none => { output := ["Error: No database selected or database does not exist. Use 'USE <database_name>;'."] }
  | some (cdb, db) =>
    match parseSelect fullCommand with
    | none => { output := ["Error: Invalid SELECT syntax. Expected: SELECT columns FROM table_name [WHERE condition] [ORDER BY column [ASC|DESC]] [LIMIT number];"] }
    | some parts =>
      match alGet db.tables parts.tableName with
      | none => { output := ["Error: Table '" ++ parts.tableName ++ "' does not exist in database '" ++ cdb ++ "'."] }
      | some table => { output := selectOnTable parts parts.tableName table }

/-! ### parseCommand (source lines 15–21) -/

def splitWsRaw : List Char → List Char → List String
  | [], acc => [⟨acc.reverse⟩]
  | c :: rest, acc =>
    if isWsCh c then ⟨acc.reverse⟩ :: splitWsRaw rest []
    else splitWsRaw rest (c :: acc)

/-- `parseCommand`: trim, split on whitespace runs (`split(/\s+/)`; on a
trimmed string this is the maximal whitespace-free pieces, and `""` splits
to `[""]`), uppercase the verb. -/
def parseCommand (command : String) : String × List String :=
  let t := trimStr command
  let parts := if t == "" then [""] else (splitWsRaw t.data []).filter (fun p => p != "")
  (upperStr (parts.headD ""), parts.tail)

/-! ### DROP TABLE / DROP DATABASE (source lines 556–636) -/

def handleDropTable (tableName : String) (currentDbName : Option String)
    (databases : DatabasesStructure) : MutResult :=
  match currentDbName.bind (fun c => (alGet databases c).map (fun db => (c, db))) with
  | none => { output := "Error: No database selected or database does not exist." }
  | some (cdb, db) =>
    match alGet db.tables tableName with
    | none => { output := "Error: Table '" ++ tableName ++ "' does not exist in database '" ++ cdb ++ "'." }
    | some _ =>
      let updatedDb : DatabaseSchema := { db with tables := alRemove db.tables tableName }
      { newDatabases := some (alSet databases cdb updatedDb),
        output := "Table '" ++ tableName ++ "' dropped successfully." }

structure DropDbResult where
  newDatabases : Option DatabasesStructure := none
  newCurrentDb : Option (Option String) := none
  output : List String
  requiresPasswordInputForDrop : Bool := false
  dbToAuthForDrop : Option String := none
deriving Repr, DecidableEq

def handleDropDatabase (dbNameToDrop : String) (currentDbName : Option String)
    (databases : DatabasesStructure) : DropDbResult :=
  match alGet databases dbNameToDrop with
  | none => { output := ["Error: Database '" ++ dbNameToDrop ++ "' does not exist."] }
  | some dbSchema =>
    if dbSchema.passwordHash.getD "" != "" && currentDbName != some dbNameToDrop then
      { output := ["Password required to drop database '" ++ dbNameToDrop ++ "'.",
                   "Enter password on the next line:"],
        requiresPasswordInputForDrop := true, dbToAuthForDrop := some dbNameToDrop }
    else
      { newDatabases := some (alRemove databases dbNameToDrop),
        newCurrentDb := some (if currentDbName == some dbNameToDrop then none else currentDbName),
        output := ["Database '" ++ dbNameToDrop ++ "' dropped successfully."] }

structure PwDropResult where
  newDatabases : Option DatabasesStructure := none
  newCurrentDb : Option (Option String) := none
  output : String
deriving Repr, DecidableEq

def handlePasswordAttemptAndDropDatabase (H : String → String)
    (dbNameToDrop enteredPassword : String) (currentDbName : Option String)
    (databases : DatabasesStructure) : PwDropResult :=
  match alGet databases dbNameToDrop with
  | none => { output := "Error: Database '" ++ dbNameToDrop ++ "' is not password protected or does not exist." }
  | some dbSchema =>
    if dbSchema.passwordHash.getD "" == "" then
      { output := "Error: Database '" ++ dbNameToDrop ++ "' is not password protected or does not exist." }
    else if verifyPassword H enteredPassword (dbSchema.passwordHash.getD "") then
      { newDatabases := some (alRemove databases dbNameToDrop),
        newCurrentDb := some (if currentDbName == some dbNameToDrop then none else currentDbName),
        output := "Database '" ++ dbNameToDrop ++ "' dropped successfully." }
    else { output := "Error: Invalid password for dropping database '" ++ dbNameToDrop ++ "'. Drop failed." }

/-! ### DELETE (source lines 639–678) -/

/-- Matcher for `^DELETE\s+FROM\s+([a-zA-Z_][a-zA-Z0-9_]*)(?:\s+WHERE\s+(.+?))?\s*;?$/i`. -/
def parseDelete (s : String) : Option (String × Option String) := do
  let r ← matchCI "DELETE".data s.data
  let r ← ws1 r
  let r ← matchCI "FROM".data r
  let r ← ws1 r
  let (name, r) ← identSplit r
  let present : Option (Option String) := do
    let r1 ← ws1 r
    let r1 ← matchCI "WHERE".data r1
    (greedySplits1 isWsCh r1).findSome? (fun w =>
      (lazyDotSplits w.2).findSome? (fun g =>
        if endOfCmd g.2 then some (some ((⟨g.1⟩ : String))) else none))
  match present with
  | some wc => some ((⟨name⟩ : String), wc)
  | none => if endOfCmd r then some ((⟨name⟩ : String), none) else none

def handleDeleteData (fullCommand : String) (currentDbName : Option String)
    (databases : DatabasesStructure) : MutResult :=
  match currentDbName.bind (fun c => (alGet databases c).map (fun db => (c, db))) with
  | none => { output := "Error: No database selected or database does not exist." }
  | some (cdb, db) =>
    match parseDelete fullCommand with
    | none => { output := "Error: Invalid DELETE syntax. Expected: DELETE FROM table_name [WHERE condition];" }
    | some (tableName, whereClauseStr) =>
      match alGet db.tables tableName with
      | none => { output := "Error: Table '" ++ tableName ++ "' does not exist in database '" ++ cdb ++ "'." }
      | some table =>
        match parseWhereClause whereClauseStr table with
        | .error e => { output := e }
        | .ok pred =>
          let deletedCount := (table.data.filter (evalWherePred pred)).length
          let newData := table.data.filter (fun row => !(evalWherePred pred row))
          let updatedDb : DatabaseSchema := { db with tables := alSet db.tables tableName { table with data := newData } }
          { newDatabases := some (alSet databases cdb updatedDb),
            output := intToDecStr (deletedCount : Int) ++ " row(s) deleted from '" ++ tableName ++ "'." }

/-! ### UPDATE (source lines 680–763) -/

/-- The tail `(?:\s+WHERE\s+(.+?))?\s*;?$`, present-first. -/
def updateTailWhere (cs : List Char) : Option (Option String) :=
  let present : Option (Option String) := do
    let r ← ws1 cs
    let r ← matchCI "WHERE".data r
    (greedySplits1 isWsCh r).findSome? (fun w =>
      (lazyDotSplits w.2).findSome? (fun g =>
        if endOfCmd g.2 then some (some ((⟨g.1⟩ : String))) else none))
  match present with
  | some wc => some wc
  | none => if endOfCmd cs then some none else none

/-- Matcher for `^UPDATE\s+([a-zA-Z_][a-zA-Z0-9_]*)\s+SET\s+(.+?)(?:\s+WHERE\s+(.+?))?\s*;?$/i`. -/
def parseUpdate (s : String) : Option (String × String × Option String) := do
  let r ← matchCI "UPDATE".data s.data
  let r ← ws1 r
  let (name, r) ← identSplit r
  let r ← ws1 r
  let r ← matchCI "SET".data r
  (greedySplits1 isWsCh r).findSome? (fun w =>
    (lazyDotSplits w.2).findSome? (fun g =>
      (updateTailWhere g.2).map (fun wc => ((⟨name⟩ : String), (⟨g.1⟩ : String), wc))))

structure SetAssign where
  column : String
  value : JsVal
deriving Repr, DecidableEq

/-- The SET-assignment loop (source lines 701–735). -/
def parseSetAssignments (parts : List String) (table : TableSchema) (tableName : String) :
    Except String (List SetAssign) :=
  match parts with
  | [] => .ok []
  | part :: rest =>
    match searchEqPair part.data with
    | none => .error ("Error: Invalid SET assignment: '" ++ part ++ "'. Expected format: column = value.")
    | some (columnName, valueStr) =>
      match table.parsedColumns.find? (fun c => eqNameCI c.name columnName) with
      | none => .error ("Error: Column '" ++ columnName ++ "' not found in table '" ++ tableName ++ "' for SET clause.")
      | some colDef =>
        let vE : Except String JsVal :=
          if upperStr valueStr == "NULL" then .ok .null
          else coerceByType colDef.type valueStr columnName
        match vE with
        | .error e => .error e
        | .ok v => (parseSetAssignments rest table tableName).map (fun l => SetAssign.mk colDef.name v :: l)

def handleUpdateData (fullCommand : String) (currentDbName : Option String)
    (databases : DatabasesStructure) : MutResult :=
  match currentDbName.bind (fun c => (alGet databases c).map (fun db => (c, db))) with
  | none => { output := "Error: No database selected or database does not exist." }
  | some (cdb, db) =>
    match parseUpdate fullCommand with
    | none => { output := "Error: Invalid UPDATE syntax. Expected: UPDATE table_name SET col1 = val1, ... [WHERE condition];" }
    | some (tableName, setClauseStr, whereClauseStr) =>
      match alGet db.tables tableName with
      | none => { output := "Error: Table '" ++ tableName ++ "' does not exist in database '" ++ cdb ++ "'." }
      | some table =>
        match parseSetAssignments ((splitCommas setClauseStr.data).map trimStr) table tableName with
        | .error e => { output := e }
        | .ok setAssignments =>
          if setAssignments.isEmpty then { output := "Error: No valid SET assignments found." }
          else
            match parseWhereClause whereClauseStr table with
            | .error e => { output := e }
            | .ok pred =>
              let updatedCount := (table.data.filter (evalWherePred pred)).length
              let newData := table.data.map (fun row =>
                if evalWherePred pred row then
                  setAssignments.foldl (fun r a => rowSet r a.column a.value) row
                else row)
              let updatedDb : DatabaseSchema := { db with tables := alSet db.tables tableName { table with data := newData } }
              { newDatabases := some (alSet databases cdb updatedDb),
                output := intToDecStr (updatedCount : Int) ++ " row(s) updated in '" ++ tableName ++ "'." }

/-! ### ALTER TABLE ... ADD COLUMN (source lines 765–824) -/

def handleAlterTableAddColumn (fullCommandArgs : List String) (currentDbName : Option String)
    (databases : DatabasesStructure) : MutResult :=
  match currentDbName.bind (fun c => (alGet databases c).map (fun db => (c, db))) with
  | none => { output := "Error: No database selected or database does not exist." }
  | some (cdb, db) =>
    if fullCommandArgs.length < 5
        || !(upperStr (fullCommandArgs.getD 0 "") == "TABLE")
        || !(upperStr (fullCommandArgs.getD 2 "") == "ADD")
        || !(upperStr (fullCommandArgs.getD 3 "") == "COLUMN") then
      { output := "Error: Invalid ALTER TABLE syntax. Expected: ALTER TABLE <table_name> ADD COLUMN <col_name> <col_type_definition>;" }
    else
      let tableName := fullCommandArgs.getD 1 ""
      let columnName := fullCommandArgs.getD 4 ""
      let columnTypeDefinition : String :=
        ⟨(joinSep " " (fullCommandArgs.drop 5)).data.filter (fun c => c != ';')⟩
      if !(tableName != "" && isValidIdentifier tableName) then
        { output := "Error: Invalid table name '" ++ tableName ++ "' in ALTER TABLE command." }
      else if !(columnName != "" && isValidIdentifier columnName) then
        { output := "Error: Invalid new column name '" ++ columnName ++ "'." }
      else if columnTypeDefinition == "" then
        { output := "Error: Missing column type definition for new column '" ++ columnName ++ "'." }
      else
        match alGet db.tables tableName with
        | none => { output := "Error: Table '" ++ tableName ++ "' does not exist in database '" ++ cdb ++ "'." }
        | some table =>
          if table.parsedColumns.any (fun col => eqNameCI col.name columnName) then
            { output := "Error: Column '" ++ columnName ++ "' already exists in table '" ++ tableName ++ "'." }
          else
            let parsedNew := parseColumnDefinitions (columnName ++ " " ++ columnTypeDefinition)
            if parsedNew.isEmpty
                || (parsedNew.headD (ColumnDefinition.mk "" "")).name == ""
                || (parsedNew.headD (ColumnDefinition.mk "" "")).type == "" then
              { output := "Error: Could not parse new column definition: '" ++ columnName ++ " " ++ columnTypeDefinition ++ "'. Ensure it is in 'name TYPE' format." }
            else
              let newColumnDef := parsedNew.headD (ColumnDefinition.mk "" "")
              let newCD :=
                if table.columnsDefinition != "" then
                  table.columnsDefinition ++ ", " ++ newColumnDef.name ++ " " ++ newColumnDef.type
                else newColumnDef.name ++ " " ++ newColumnDef.type
              let updatedTable : TableSchema :=
                { columnsDefinition := newCD,
                  parsedColumns := table.parsedColumns ++ [newColumnDef],
                  data := table.data.map (fun row => rowSet row newColumnDef.name .null) }
              { newDatabases := some (alSet databases cdb { db with tables := alSet db.tables tableName updatedTable }),
                output := "Column '" ++ columnName ++ "' added to table '" ++ tableName ++ "'." }

/-! ### RENAME TABLE (source lines 826–853) -/

def handleRenameTable (oldTableName newTableName : String) (currentDbName : Option String)
    (databases : DatabasesStructure) : MutResult :=
  match currentDbName.bind (fun c => (alGet databases c).map (fun db => (c, db))) with
  | none => { output := "Error: No database selected or database does not exist." }
  | some (cdb, db) =>
    match alGet db.tables oldTableName with
    | none => { output := "Error: Table '" ++ oldTableName ++ "' does not exist in database '" ++ cdb ++ "'." }
    | some tbl =>
      if (alGet db.tables newTableName).isSome then
        { output := "Error: Table '" ++ newTableName ++ "' already exists in database '" ++ cdb ++ "'." }
      else if !(isValidIdentifier newTableName) then
        { output := "Error: Invalid new table name '" ++ newTableName ++ "'. Names must start with a letter or underscore, followed by letters, numbers, or underscores." }
      else
        { newDatabases := some (alSet databases cdb { db with tables := alSet (alRemove db.tables oldTableName) newTableName tbl }),
          output := "Table '" ++ oldTableName ++ "' renamed to '" ++ newTableName ++ "' successfully." }

/-! ### Definitions used by the verification statements -/

/-- An output line is an error line: it carries the distinguishing `Error`
prefix every failure message of the engine starts with (spec §7). -/
def errPre (s : String) : Bool := s.data.take 5 == ['E', 'r', 'r', 'o', 'r']

/-- Error detection for handlers whose output is a list of lines. -/
def errPreL (l : List String) : Bool := errPre (l.headD "")

/-- The store the caller ends up with: handlers that signal failure by
returning no `newDatabases` leave the caller's store untouched. -/
def mutStore (dbs : DatabasesStructure) (o : Option DatabasesStructure) : DatabasesStructure :=
  o.getD dbs

/-- Three-way comparison induced by a linear order. -/
def cmpOrd {κ : Type} [LinearOrder κ] (x y : κ) : Int :=
  if x < y then -1 else if y < x then 1 else 0

/-- Sort key of a row under an integer-like ORDER BY column: the code's
`parseInt(String(v))`, with `⊥` for `null` (and for `NaN`, which the
well-formedness hypotheses exclude). -/
def numSortKeyAsInt (name : String) (r : Row) : WithBot Rat :=
  match rowGet r name with
  | .null => ⊥
  | v =>
    match jsParseInt (jsToString v) with
    | some i => ((i : Rat) : WithBot Rat)
    | none => ⊥

/-- Sort key under a floating-like ORDER BY column: `parseFloat(String(v))`. -/
def numSortKeyAsFloat (name : String) (r : Row) : WithBot Rat :=
  match rowGet r name with
  | .null => ⊥
  | v =>
    match jsParseFloat (jsToString v) with
    | some q => (q : WithBot Rat)
    | none => ⊥

/-- Sort key under a textual ORDER BY column: `String(v).toLowerCase()`. -/
def strSortKey (name : String) (r : Row) : WithBot String :=
  match rowGet r name with
  | .null => ⊥
  | v => (lowerStr (jsToString v) : WithBot String)

/-- Well-formed stored value in an integer-like column: `null` or an
integer-valued number (all INSERT/UPDATE can store there). -/
def IntColVal (v : JsVal) : Prop := v = .null ∨ ∃ n : Int, v = .num (n : Rat)

/-- Well-formed stored value in a floating-like column: `null` or a finite
decimal number (all INSERT/UPDATE can store there). -/
def FloatColVal (v : JsVal) : Prop :=
  v = .null ∨ ∃ q : Rat, v = .num q ∧ (q.den = 1 ∨ (decExp q).isSome)

/-- Well-formed stored value in a textual column: `null` or a string. -/
def TextColVal (v : JsVal) : Prop := v = .null ∨ ∃ s : String, v = .str s

/-- Modelled from the spec (§4.4 comparison policy, claim C2): numeric
values compare by numeric equality, textual values case-insensitively,
any other combination (including null) by strict value equality. -/
def specWhereCompare (stored lit : JsVal) : Bool :=
  match stored, lit with
  | .num a, .num b => a == b
  | .str a, .str b => lowerStr a == lowerStr b
  | a, b => a == b

/-- Spec-side fragment rule (C8): trim; discard fragments starting with a
table-constraint keyword; an identifier followed by whitespace and a
remainder becomes a column whose type is the uppercased remainder; anything
else is dropped. -/
def specFragment (d : String) : Option ColumnDefinition :=
  let t := trimStr d
  if t == "" then none
  else if constraintKeywords.any (fun kw => strStartsWith (upperStr t) kw) then none
  else
    match fragNameType t.data with
    | some nt => some (ColumnDefinition.mk (trimStr nt.1) (upperStr (trimStr nt.2)))
    | none => none

/-- First parenthesis character of a string, if any. -/
def firstParenChar (cs : List Char) : Option Char :=
  cs.find? (fun c => c == '(' || c == ')')

/-- Amended C8 split criterion, in the spec's own terms: a comma is
protected exactly when the first parenthesis character after it is `)`. -/
def specSplitGo : List Char → List Char → List String
  | [], acc => [⟨acc.reverse⟩]
  | c :: rest, acc =>
    if c == ',' && !(firstParenChar rest == some ')') then
      ⟨acc.reverse⟩ :: specSplitGo rest []
    else specSplitGo rest (c :: acc)

def specSplitCols (cs : List Char) : List String := specSplitGo cs []

/-- The original claim C8's split: commas at parenthesis nesting depth 0. -/
def depthSplitGo : List Char → Nat → List Char → List String
  | [], _, acc => [⟨acc.reverse⟩]
  | c :: rest, d, acc =>
    if c == ',' && d == 0 then ⟨acc.reverse⟩ :: depthSplitGo rest 0 []
    else depthSplitGo rest (if c == '(' then d + 1 else if c == ')' then d - 1 else d) (c :: acc)

/-- Column-definition parsing as claim C8 literally describes it: split on
commas that are not nested inside parentheses, then apply the fragment
rules. -/
def claimParseColumnDefinitions (s : String) : List ColumnDefinition :=
  if s == "" then [] else (depthSplitGo s.data 0 []).filterMap specFragment

/-! ### Concrete fixtures for witnesses and counterexamples -/

def fixIntTable : TableSchema := ⟨"x INT", [⟨"x", "INT"⟩], []⟩

def fixIntStore : DatabasesStructure := [("d", ⟨[("t", fixIntTable)], none⟩)]

def fixIntTableRow : TableSchema := ⟨"x INT", [⟨"x", "INT"⟩], [[("x", JsVal.num 1)]]⟩

def fixIntStoreRow : DatabasesStructure := [("d", ⟨[("t", fixIntTableRow)], none⟩)]

def fixUsersTable : TableSchema :=
  ⟨"id INT, name VARCHAR(50)", [⟨"id", "INT"⟩, ⟨"name", "VARCHAR(50)"⟩],
    [[("id", JsVal.num 1), ("name", JsVal.str "Ann")],
     [("id", JsVal.num 2), ("name", JsVal.str "Bob")]]⟩

def fixUsersStore : DatabasesStructure := [("d", ⟨[("t", fixUsersTable)], none⟩)]

/-! ### Groundwork: characters and digits -/

theorem isDigitCh_not_ws {c : Char} (h : isDigitCh c = true) : isWsCh c = false := by
  simp only [isDigitCh, Bool.and_eq_true, decide_eq_true_eq] at h
  simp only [isWsCh, Bool.or_eq_false_iff, decide_eq_false_iff_not]
  omega

theorem digitChar_isDigit {d : Nat} (h : d < 10) : isDigitCh (Nat.digitChar d) = true := by
  interval_cases d <;> decide

theorem digitVal_digitChar {d : Nat} (h : d < 10) : digitVal (Nat.digitChar d) = d := by
  interval_cases d <;> decide

theorem natDigitsGo_digits (fuel n : Nat) : ∀ c ∈ natDigitsGo fuel n, isDigitCh c = true := by
  induction fuel generalizing n with
  | zero => intro c hc; simp [natDigitsGo] at hc
  | succ f ih =>
    intro c hc
    by_cases h : n = 0
    · simp [natDigitsGo, h] at hc
    · simp only [natDigitsGo, if_neg h, List.mem_append, List.mem_singleton] at hc
      rcases hc with h1 | h1
      · exact ih _ c h1
      · subst h1; exact digitChar_isDigit (Nat.mod_lt _ (by norm_num))

theorem natDigitsGo_ne_nil (fuel n : Nat) (h0 : 0 < n) (hf : n ≤ fuel) :
    natDigitsGo fuel n ≠ [] := by
  cases fuel with
  | zero => omega
  | succ f =>
    have h : ¬ n = 0 := by omega
    simp [natDigitsGo, h]

theorem digitsToNat_shift (A : Nat) (l : List Char) :
    l.foldl (fun a c => a * 10 + digitVal c) A = A * 10 ^ l.length + digitsToNat l := by
  induction l generalizing A with
  | nil => simp [digitsToNat]
  | cons c t ih =>
    show t.foldl _ (A * 10 + digitVal c) = _
    rw [ih]
    have h2 : digitsToNat (c :: t) = digitVal c * 10 ^ t.length + digitsToNat t := by
      show t.foldl _ (0 * 10 + digitVal c) = _
      rw [ih]
      simp
    rw [h2]
    simp [List.length_cons]
    ring

theorem digitsToNat_append (l1 l2 : List Char) :
    digitsToNat (l1 ++ l2) = digitsToNat l1 * 10 ^ l2.length + digitsToNat l2 := by
  show (l1 ++ l2).foldl _ 0 = _
  rw [List.foldl_append]
  exact digitsToNat_shift _ _

theorem digitsToNat_natDigitsGo (fuel n : Nat) (hf : n ≤ fuel) :
    digitsToNat (natDigitsGo fuel n) = n := by
  induction fuel generalizing n with
  | zero =>
    have h : n = 0 := by omega
    subst h; simp [natDigitsGo, digitsToNat]
  | succ f ih =>
    by_cases h : n = 0
    · subst h; simp [natDigitsGo, digitsToNat]
    · simp only [natDigitsGo, if_neg h]
      rw [digitsToNat_append]
      have hlt : n / 10 < n := Nat.div_lt_self (by omega) (by norm_num)
      rw [ih (n / 10) (by omega)]
      have hm : digitVal (Nat.digitChar (n % 10)) = n % 10 :=
        digitVal_digitChar (Nat.mod_lt _ (by norm_num))
      simp [digitsToNat, hm]
      omega

theorem digitsToNat_natToDigitChars (n : Nat) : digitsToNat (natToDigitChars n) = n := by
  by_cases h : n = 0
  · subst h; simp [natToDigitChars, digitsToNat]; decide
  · simp only [natToDigitChars, if_neg h]
    exact digitsToNat_natDigitsGo n n le_rfl

theorem natToDigitChars_digits (n : Nat) : ∀ c ∈ natToDigitChars n, isDigitCh c = true := by
  by_cases h : n = 0
  · subst h; intro c hc; simp [natToDigitChars] at hc; subst hc; decide
  · simp only [natToDigitChars, if_neg h]
    exact natDigitsGo_digits n n

theorem natToDigitChars_ne_nil (n : Nat) : natToDigitChars n ≠ [] := by
  by_cases h : n = 0
  · subst h; simp [natToDigitChars]
  · simp only [natToDigitChars, if_neg h]
    exact natDigitsGo_ne_nil n n (by omega) le_rfl

/-! ### Groundwork: error-line detection -/

theorem errPre_append_left (a b : String) (h : 5 ≤ a.data.length) :
    errPre (a ++ b) = errPre a := by
  simp only [errPre, String.data_append]
  rw [List.take_append_of_le_length h]

theorem errPre_of_data_head (s : String) (c : Char) (t : List Char) (hs : s.data = c :: t)
    (hc : c ≠ 'E') : errPre s = false := by
  simp only [errPre, hs, List.take_succ_cons]
  rw [beq_eq_false_iff_ne]
  intro hEq
  exact hc (List.cons.injEq _ _ _ _ ▸ hEq).1

theorem errPre_append_head (a b : String) (c : Char) (t : List Char) (ha : a.data = c :: t)
    (hc : c ≠ 'E') : errPre (a ++ b) = false := by
  apply errPre_of_data_head _ c (t ++ b.data)
  · simp [String.data_append, ha]
  · exact hc

/-- Success messages of the counting handlers start with a digit. -/
theorem errPre_count_msg (n : Nat) (b : String) :
    errPre (intToDecStr (n : Int) ++ b) = false := by
  have hd : (intToDecStr (n : Int)).data = natToDigitChars n := by
    simp [intToDecStr, Int.natAbs_ofNat, show ¬((n : Int) < 0) by omega]
  cases hL : natToDigitChars n with
  | nil => exact absurd hL (natToDigitChars_ne_nil n)
  | cons c t =>
    apply errPre_append_head _ _ c t (by rw [hd, hL])
    have hdig : isDigitCh c = true :=
      natToDigitChars_digits n c (by rw [hL]; exact List.mem_cons_self _ _)
    intro hEq
    rw [hEq] at hdig
    exact absurd hdig (by decide)

/-! ### Groundwork: parseInt round-trip on rendered integers -/

theorem takeWhile_all (p : Char → Bool) (l : List Char) (h : ∀ c ∈ l, p c = true) :
    l.takeWhile p = l := List.takeWhile_eq_self_iff.mpr h

theorem parseDigitRun_all (l : List Char) (hne : l ≠ []) (h : ∀ c ∈ l, isDigitCh c = true) :
    parseDigitRun l = some (digitsToNat l) := by
  unfold parseDigitRun
  rw [takeWhile_all _ _ h]
  cases l with
  | nil => exact absurd rfl hne
  | cons c t => simp

theorem dropWhile_ws_digits (c : Char) (t : List Char) (hc : isDigitCh c = true) :
    (c :: t).dropWhile isWsCh = c :: t := by
  rw [List.dropWhile_cons, isDigitCh_not_ws hc]
  simp

theorem jsParseInt_intToDecStr (i : Int) : jsParseInt (intToDecStr i) = some i := by
  by_cases hi : i < 0
  · have hd : (intToDecStr i).data = '-' :: natToDigitChars i.natAbs := by
      simp [intToDecStr, hi]
    rw [jsParseInt, hd]
    have hws : ('-' :: natToDigitChars i.natAbs).dropWhile isWsCh
        = '-' :: natToDigitChars i.natAbs := by
      rw [List.dropWhile_cons, show isWsCh '-' = false from by decide]
      simp
    rw [hws]
    show (parseDigitRun (natToDigitChars i.natAbs)).map (fun n => -(n : Int)) = some i
    rw [parseDigitRun_all _ (natToDigitChars_ne_nil _) (natToDigitChars_digits _)]
    rw [digitsToNat_natToDigitChars]
    have hnegi : -((i.natAbs : Nat) : Int) = i := by omega
    show some (-((i.natAbs : Nat) : Int)) = some i
    rw [hnegi]
  · have hd : (intToDecStr i).data = natToDigitChars i.natAbs := by
      simp [intToDecStr, hi]
    cases hL : natToDigitChars i.natAbs with
    | nil => exact absurd hL (natToDigitChars_ne_nil _)
    | cons c t =>
      have hcd : isDigitCh c = true :=
        natToDigitChars_digits _ c (by rw [hL]; exact List.mem_cons_self _ _)
      rw [jsParseInt, hd, hL, dropWhile_ws_digits c t hcd]
      have hc1 : c ≠ '-' := by
        intro h; rw [h] at hcd; exact absurd hcd (by decide)
      have hc2 : c ≠ '+' := by
        intro h; rw [h] at hcd; exact absurd hcd (by decide)
      split
      · next heq => exact absurd (List.cons.injEq _ _ _ _ ▸ heq).1 hc1
      · next heq => exact absurd (List.cons.injEq _ _ _ _ ▸ heq).1 hc2
      · rw [parseDigitRun_all (c :: t) (List.cons_ne_nil c t)
          (by rw [← hL]; exact natToDigitChars_digits _)]
        rw [← hL, digitsToNat_natToDigitChars]
        show some ((i.natAbs : Nat) : Int) = some i
        have : ((i.natAbs : Nat) : Int) = i := by omega
        rw [this]

/-! ### Claim C10 -/

theorem takeWhile_append_stop (p : Char → Bool) (l1 l2 : List Char) (c : Char)
    (h1 : ∀ x ∈ l1, p x = true) (hc : p c = false) :
    (l1 ++ c :: l2).takeWhile p = l1 := by
  induction l1 with
  | nil => simp [List.takeWhile_cons, hc]
  | cons a t ih =>
    have ha : p a = true := h1 a (List.mem_cons_self _ _)
    simp [List.takeWhile_cons, ha, ih (fun x hx => h1 x (List.mem_cons_of_mem _ hx))]

theorem jsParseInt_digits_dot (a b : List Char) (hne : a ≠ [])
    (hdig : ∀ c ∈ a, isDigitCh c = true) :
    jsParseInt (⟨a ++ '.' :: b⟩ : String) = some (digitsToNat a : Int) := by
  cases a with
  | nil => exact absurd rfl hne
  | cons c t =>
    have hcd : isDigitCh c = true := hdig c (List.mem_cons_self _ _)
    rw [jsParseInt]
    show (match ((c :: (t ++ '.' :: b)).dropWhile isWsCh : List Char) with
      | '-' :: rest => (parseDigitRun rest).map (fun n => -(n : Int))
      | '+' :: rest => (parseDigitRun rest).map (fun n => (n : Int))
      | rest => (parseDigitRun rest).map (fun n => (n : Int))) = some (digitsToNat (c :: t) : Int)
    rw [dropWhile_ws_digits c _ hcd]
    have hc1 : c ≠ '-' := by intro h; rw [h] at hcd; exact absurd hcd (by decide)
    have hc2 : c ≠ '+' := by intro h; rw [h] at hcd; exact absurd hcd (by decide)
    split
    · next heq => exact absurd (List.cons.injEq _ _ _ _ ▸ heq).1 hc1
    · next heq => exact absurd (List.cons.injEq _ _ _ _ ▸ heq).1 hc2
    · have hrun : parseDigitRun (c :: (t ++ '.' :: b)) = some (digitsToNat (c :: t)) := by
        unfold parseDigitRun
        rw [show (c :: (t ++ '.' :: b)) = (c :: t) ++ '.' :: b from rfl]
        rw [takeWhile_append_stop _ _ _ _ hdig (by decide)]
        simp
      rw [hrun]
      rfl

/-- C10: for an integer-like column, an INSERT or UPDATE SET token with an
integer part and a fractional part is not rejected: the shared coercion
truncates it to its leading integer digits (`parseInt`), and it fails
exactly when the leading characters parse to no base-10 integer; concretely,
inserting and updating `3.7` into an INT column stores `3`. -/
theorem c10_int_coercion_truncates :
    (∀ ty msg : String, ∀ a b : List Char, intLikeType ty = true → a ≠ [] →
      (∀ c ∈ a, isDigitCh c = true) →
      coerceByType ty (⟨a ++ '.' :: b⟩ : String) msg = .ok (.num ((digitsToNat a : Int) : Rat)))
  ∧ (∀ ty s msg : String, intLikeType ty = true →
      ((coerceByType ty s msg).isOk = false ↔ jsParseInt s = none))
  ∧ (handleInsertData "INSERT INTO t VALUES (3.7)" (some "d") fixIntStore).newDatabases
      = some [("d", ⟨[("t", ⟨"x INT", [⟨"x", "INT"⟩], [[("x", JsVal.num 3)]]⟩)], none⟩)]
  ∧ (handleUpdateData "UPDATE t SET x = 3.7" (some "d") fixIntStoreRow).newDatabases
      = some [("d", ⟨[("t", ⟨"x INT", [⟨"x", "INT"⟩], [[("x", JsVal.num 3)]]⟩)], none⟩)] := by
  refine ⟨?_, ?_, by decide, by decide⟩
  · intro ty msg a b hty hne hdig
    rw [coerceByType, if_pos hty, jsParseInt_digits_dot a b hne hdig]
  · intro ty s msg hty
    rw [coerceByType, if_pos hty]
    cases hJ : jsParseInt s <;> simp [Except.isOk, Except.toBool]

/-- Witness for C10 at `ty = "INT"`, token `3.7`. -/
theorem c10_witness :
    coerceByType "INT" (⟨['3'] ++ '.' :: ['7']⟩ : String) "x"
      = .ok (.num ((digitsToNat ['3'] : Int) : Rat)) :=
  c10_int_coercion_truncates.1 "INT" "x" ['3'] ['7'] (by decide) (by decide) (by decide)

/-! ### Claims C9, C4, C6 -/

/-- C9: when the filtered (and limited) row set of a SELECT is empty, the
output is `Empty set` and the projected column list is never validated; with
matching rows, the same nonexistent columns give an unknown-column error. -/
theorem c9_empty_set_skips_column_validation :
    (∀ (parts : SelectParts) (tableName : String) (table : TableSchema) (processed : List Row),
      applyLimit parts.limitCountStr processed = [] →
      selectFinish parts tableName table processed = ["Empty set"])
  ∧ (handleSelectData "SELECT nope, missing FROM t WHERE x = 99" (some "d") fixIntStoreRow).output
      = ["Empty set"]
  ∧ errPreL (handleSelectData "SELECT nope, missing FROM t" (some "d") fixIntStoreRow).output
      = true := by
  refine ⟨?_, by decide, by decide⟩
  intro parts tableName table processed h
  rw [selectFinish, h]
  rfl

/-- Witness for C9: a SELECT whose filter removes every row. -/
theorem c9_witness :
    selectFinish { columnsStr := "nope", tableName := "t" } "t" fixIntTableRow [] = ["Empty set"] :=
  c9_empty_set_skips_column_validation.1 { columnsStr := "nope", tableName := "t" } "t"
    fixIntTableRow [] (by decide)

/-- Counterexample to C4 as stated: `SELECT * FROM t LIMIT -1` on a
nonempty table is rejected as a syntax error; the full result (which the
claim demands) is a rendered grid. -/
theorem c4_counterexample :
    (handleSelectData "SELECT * FROM t LIMIT -1" (some "d") fixIntStoreRow).output
      = ["Error: Invalid SELECT syntax. Expected: SELECT columns FROM table_name [WHERE condition] [ORDER BY column [ASC|DESC]] [LIMIT number];"]
  ∧ (handleSelectData "SELECT * FROM t" (some "d") fixIntStoreRow).output
      = ["+---+", "| x |", "+---+", "| 1 |", "+---+"] := by
  exact ⟨by decide, by decide⟩

/-- Amended C4: LIMIT 0 yields zero rows; a negative or non-numeric LIMIT
argument never matches the LIMIT group — with a WHERE clause present the
junk is absorbed into the lazily-matched WHERE string and effectively
ignored, otherwise the whole SELECT fails to parse (syntax error). -/
theorem c4_limit_policy :
    (∀ (parts : SelectParts) (tableName : String) (table : TableSchema) (processed : List Row)
        (s : String), parts.limitCountStr = some s → jsParseInt s = some 0 →
        selectFinish parts tableName table processed = ["Empty set"])
  ∧ (handleSelectData "SELECT * FROM t LIMIT 0" (some "d") fixIntStoreRow).output = ["Empty set"]
  ∧ parseSelect "SELECT * FROM t LIMIT -1" = none
  ∧ parseSelect "SELECT * FROM t LIMIT abc" = none
  ∧ (handleSelectData "SELECT * FROM t WHERE x = 1 LIMIT -1" (some "d") fixIntStoreRow).output
      = (handleSelectData "SELECT * FROM t WHERE x = 1" (some "d") fixIntStoreRow).output := by
  refine ⟨?_, by decide, by decide, by decide, by decide⟩
  intro parts tableName table processed s hs h0
  simp [selectFinish, applyLimit, hs, h0]

/-- Witness for the amended C4 at `LIMIT 0`. -/
theorem c4_witness :
    selectFinish { columnsStr := "*", tableName := "t", limitCountStr := some "0" } "t"
      fixIntTableRow fixIntTableRow.data = ["Empty set"] :=
  c4_limit_policy.1 { columnsStr := "*", tableName := "t", limitCountStr := some "0" } "t"
    fixIntTableRow fixIntTableRow.data "0" rfl (by decide)

/-- Counterexample to C6 as stated: an empty password is shorter than 4
characters, yet `CREATE DATABASE d WITH PASSWORD ''` succeeds and creates
an unprotected database. -/
theorem c6_counterexample :
    (handleCreateDatabase (fun s => s) "CREATE DATABASE d WITH PASSWORD ''" []).output
      = "Database 'd' created successfully."
  ∧ (handleCreateDatabase (fun s => s) "CREATE DATABASE d WITH PASSWORD ''" []).newDatabases
      = [("d", ⟨[], none⟩)] := by
  exact ⟨by decide, by decide⟩

/-- Amended C6: for a valid, absent name — a nonempty password below 4
characters fails and leaves the store unchanged; a password of at least 4
characters creates the database with the password's hash stored; the empty
password is treated as no password at all and creates an unprotected
database. -/
theorem c6_password_policy (H : String → String) (dbs : DatabasesStructure) (name p : String)
    (hv : isValidIdentifier name = true) (habs : (alGet dbs name).isSome = false) :
    (p ≠ "" → p.length < 4 →
      createDatabaseCore H name (some p) dbs
        = ⟨dbs, "Error: Password for database '" ++ name ++ "' must be at least 4 characters long."⟩)
  ∧ (4 ≤ p.length → H p ≠ "" →
      createDatabaseCore H name (some p) dbs
        = ⟨alSet dbs name ⟨[], some (H p)⟩,
           "Database '" ++ name ++ "' created successfully." ++ " It is password protected."⟩)
  ∧ (createDatabaseCore H name (some "") dbs
      = ⟨alSet dbs name ⟨[], none⟩, "Database '" ++ name ++ "' created successfully."⟩) := by
  have hname : name ≠ "" := by
    intro h; rw [h] at hv; exact absurd hv (by decide)
  have hguard : (!(name != "" && isValidIdentifier name)) = false := by
    simp [hname, hv]
  refine ⟨?_, ?_, ?_⟩
  · intro hp hlen
    rw [createDatabaseCore, if_neg (by simp [hguard]), if_neg (by simp [habs]),
      if_pos (by simp [hp, hlen])]
  · intro hlen hH
    have hp : p ≠ "" := by
      intro h; rw [h] at hlen; exact absurd hlen (by decide)
    have h4 : ¬ (p.length < 4) := by omega
    simp [createDatabaseCore, hguard, habs, hp, h4, hashPassword, hH]
  · simp [createDatabaseCore, hguard, habs]

/-- Witness for the amended C6. -/
theorem c6_witness :
    ((("abcd" : String) ≠ "" → ("abcd" : String).length < 4 →
      createDatabaseCore (fun s => s) "d" (some "abcd") []
        = ⟨[], "Error: Password for database '" ++ "d" ++ "' must be at least 4 characters long."⟩)
  ∧ (4 ≤ ("abcd" : String).length → (fun s => s) "abcd" ≠ "" →
      createDatabaseCore (fun s => s) "d" (some "abcd") []
        = ⟨alSet [] "d" ⟨[], some ((fun s => s) "abcd")⟩,
           "Database '" ++ "d" ++ "' created successfully." ++ " It is password protected."⟩)
  ∧ (createDatabaseCore (fun s => s) "d" (some "") []
      = ⟨alSet [] "d" ⟨[], none⟩, "Database '" ++ "d" ++ "' created successfully."⟩)) :=
  c6_password_policy (fun s => s) [] "d" "abcd" (by decide) (by decide)

/-! ### Claim C8 -/

theorem lookNoParen_eq (cs : List Char) :
    lookNoParenThenClose cs = (firstParenChar cs == some ')') := by
  induction cs with
  | nil => rfl
  | cons c t ih =>
    by_cases h1 : c = '('
    · subst h1; rfl
    · by_cases h2 : c = ')'
      · subst h2; rfl
      · have hp : (c != '(' && c != ')') = true := by simp [h1, h2]
        have hq : (c == '(' || c == ')') = false := by simp [h1, h2]
        rw [lookNoParenThenClose, List.dropWhile_cons, hp]
        rw [firstParenChar, List.find?_cons_of_neg _ (by simp [h1, h2])]
        simp only [if_true]
        exact ih

theorem splitDefsGo_eq_spec (cs acc : List Char) : splitDefsGo cs acc = specSplitGo cs acc := by
  induction cs generalizing acc with
  | nil => rfl
  | cons c t ih =>
    rw [splitDefsGo, specSplitGo, lookNoParen_eq]
    by_cases h : (c == ',' && !(firstParenChar t == some ')')) = true
    · rw [if_pos h, if_pos h, ih]
    · rw [if_neg h, if_neg h, ih]

theorem parseCols_foldr (l : List String) :
    l.foldr (fun d acc =>
      let trimmedDef := trimStr d
      if trimmedDef == "" then acc
      else if constraintKeywords.any (fun kw => strStartsWith (upperStr trimmedDef) kw) then acc
      else
        match fragNameType trimmedDef.data with
        | some (n, t) => ColumnDefinition.mk (trimStr n) (upperStr (trimStr t)) :: acc
        | none => acc) []
    = l.filterMap specFragment := by
  induction l with
  | nil => rfl
  | cons d t ih =>
    rw [List.foldr_cons, List.filterMap_cons, ih]
    show (let trimmedDef := trimStr d; _) = _
    simp only []
    unfold specFragment
    by_cases h1 : trimStr d == ""
    · simp [h1]
    · rw [if_neg h1, if_neg h1]
      by_cases h2 : constraintKeywords.any (fun kw => strStartsWith (upperStr (trimStr d)) kw) = true
      · simp [h2]
      · rw [if_neg h2, if_neg h2]
        cases hF : fragNameType (trimStr d).data <;> simp [hF]

/-- Counterexample to C8 as stated: with balanced nested parentheses the
code splits at a comma that is nested inside parentheses (because the
lookahead only checks that the first parenthesis character after the comma
is `)`), so `a VARCHAR(1,(2))` does not stay one fragment. -/
theorem c8_counterexample :
    parseColumnDefinitions "a VARCHAR(1,(2))" = [⟨"a", "VARCHAR(1"⟩]
  ∧ claimParseColumnDefinitions "a VARCHAR(1,(2))" = [⟨"a", "VARCHAR(1,(2))"⟩]
  ∧ parseColumnDefinitions "a VARCHAR(1,(2))" ≠ claimParseColumnDefinitions "a VARCHAR(1,(2))" := by
  exact ⟨by decide, by decide, by decide⟩

/-- Amended C8: empty input yields the empty list, and otherwise the parser
splits at exactly the commas whose first following parenthesis character is
not `)` (the `(?![^()]*\))` lookahead), then trims each fragment, discards
constraint-keyword fragments, keeps `identifier whitespace remainder`
fragments as columns with uppercased type, and drops the rest. -/
theorem c8_column_definition_rule (s : String) :
    parseColumnDefinitions "" = []
  ∧ parseColumnDefinitions s
      = (if s == "" then [] else (specSplitCols s.data).filterMap specFragment) := by
  refine ⟨by decide, ?_⟩
  by_cases h : s == ""
  · have hs : s = "" := by simpa using h
    subst hs
    decide
  · rw [if_neg h, parseColumnDefinitions, if_neg h]
    rw [show splitDefs s.data = specSplitCols s.data from splitDefsGo_eq_spec s.data []]
    exact parseCols_foldr _

/-! ### Claim C2 -/

/-- C2: for a WHERE clause that compiles to an equality predicate, the
predicate closes over an existing column, and comparing a row follows the
spec's policy: numeric equality when both sides are numbers, case-insensitive
equality when both are strings, strict value equality otherwise (null and
undefined included). -/
theorem c2_where_comparison (table : TableSchema) (w : String) (name : String) (v : JsVal)
    (h : parseWhereClause (some w) table = .ok (.eq name v)) :
    (∃ colDef ∈ table.parsedColumns, name = colDef.name)
  ∧ ∀ row : Row, evalWherePred (.eq name v) row = specWhereCompare (rowGet row name) v := by
  constructor
  · rw [parseWhereClause] at h
    cases hS : searchEqPair w.data with
    | none => rw [hS] at h; exact absurd h (by simp)
    | some cf =>
      obtain ⟨colName, fvs⟩ := cf
      rw [hS] at h
      dsimp only [] at h
      cases hF : table.parsedColumns.find? (fun c => eqNameCI c.name colName) with
      | none => rw [hF] at h; exact absurd h (by simp)
      | some colDef =>
        rw [hF] at h
        refine ⟨colDef, List.mem_of_find?_eq_some hF, ?_⟩
        repeat' split at h
        all_goals simp_all
  · intro row
    cases v <;> cases hr : rowGet row name <;>
      simp only [evalWherePred, specWhereCompare, hr]

/-- Witness for C2 on a concrete table and clause. -/
theorem c2_witness :
    ((∃ colDef ∈ fixUsersTable.parsedColumns, "id" = colDef.name)
  ∧ ∀ row : Row, evalWherePred (.eq "id" (.num 3)) row
      = specWhereCompare (rowGet row "id") (.num 3)) :=
  c2_where_comparison fixUsersTable "id = 3" "id" (.num 3) (by decide)

/-! ### Claim C7 -/

/-- C7: passwords are never stored or compared in plaintext.  CREATE
DATABASE stores only the one-way hash `hashPassword H p`; password
verification is the comparison of the hash of the entered text against the
stored hash; and both the USE and the DROP password attempts are decided
exactly by that verification. -/
theorem c7_password_never_plaintext (H : String → String) :
    (∀ (name p : String) (dbs : DatabasesStructure), isValidIdentifier name = true →
      (alGet dbs name).isSome = false → p ≠ "" → 4 ≤ p.length → H p ≠ "" →
      (createDatabaseCore H name (some p) dbs).newDatabases
        = alSet dbs name ⟨[], some (hashPassword H p)⟩)
  ∧ (∀ p h : String, verifyPassword H p h = (p != "" && h != "" && H p == h))
  ∧ (∀ (name entered : String) (dbs : DatabasesStructure) (db : DatabaseSchema) (h : String),
      alGet dbs name = some db → db.passwordHash = some h → h ≠ "" →
      ((handlePasswordAttempt H name entered dbs).newCurrentDb = some name
        ↔ verifyPassword H entered h = true))
  ∧ (∀ (name entered : String) (cur : Option String) (dbs : DatabasesStructure)
        (db : DatabaseSchema) (h : String),
      alGet dbs name = some db → db.passwordHash = some h → h ≠ "" →
      ((handlePasswordAttemptAndDropDatabase H name entered cur dbs).newDatabases.isSome = true
        ↔ verifyPassword H entered h = true)) := by
  refine ⟨?_, ?_, ?_, ?_⟩
  · intro name p dbs hv habs hp hlen hH
    have hname : name ≠ "" := by
      intro h; rw [h] at hv; exact absurd hv (by decide)
    have hguard : (!(name != "" && isValidIdentifier name)) = false := by simp [hname, hv]
    have h4 : ¬ (p.length < 4) := by omega
    simp [createDatabaseCore, hguard, habs, hp, h4, hashPassword, hH]
  · intro p h
    by_cases hp : p = ""
    · simp [verifyPassword, hp]
    · by_cases hh : h = ""
      · simp [verifyPassword, hp, hh]
      · simp [verifyPassword, hashPassword, hp, hh]
  · intro name entered dbs db h halg hph hne
    rw [handlePasswordAttempt, halg]
    dsimp only []
    rw [hph]
    simp only [Option.getD_some]
    rw [if_neg (by simp [hne])]
    by_cases hv : verifyPassword H entered h = true
    · rw [if_pos hv]; simp [hv]
    · rw [if_neg hv]; simp [hv]
  · intro name entered cur dbs db h halg hph hne
    rw [handlePasswordAttemptAndDropDatabase, halg]
    dsimp only []
    rw [hph]
    simp only [Option.getD_some]
    rw [if_neg (by simp [hne])]
    by_cases hv : verifyPassword H entered h = true
    · rw [if_pos hv]; simp [hv]
    · rw [if_neg hv]; simp [hv]

/-- Witness for C7: a concrete creation and a concrete password attempt. -/
theorem c7_witness :
    ((createDatabaseCore (fun s => s) "d" (some "abcd") []).newDatabases
       = alSet [] "d" ⟨[], some (hashPassword (fun s => s) "abcd")⟩)
  ∧ ((handlePasswordAttempt (fun s => s) "d" "abcd"
        [("d", ⟨[], some "abcd"⟩)]).newCurrentDb = some "d"
      ↔ verifyPassword (fun s => s) "abcd" "abcd" = true) :=
  ⟨(c7_password_never_plaintext (fun s => s)).1 "d" "abcd" [] (by decide) (by decide)
      (by decide) (by decide) (by decide),
   (c7_password_never_plaintext (fun s => s)).2.2.1 "d" "abcd"
      [("d", ⟨[], some "abcd"⟩)] ⟨[], some "abcd"⟩ "abcd" (by decide) rfl (by decide)⟩

end SqlCliq


namespace SqlCliq

theorem isIdentCh_not_special {c : Char} (h : isIdentCh c = true) :
    isWsCh c = false ∧ c ≠ ',' ∧ c ≠ ';' := by
  simp only [isIdentCh, isIdentStartCh, isDigitCh, Bool.or_eq_true, Bool.and_eq_true,
    decide_eq_true_eq] at h
  refine ⟨?_, ?_, ?_⟩
  · simp only [isWsCh, Bool.or_eq_false_iff, decide_eq_false_iff_not]
    omega
  · intro he
    have : c.toNat = 44 := by rw [he]; rfl
    omega
  · intro he
    have : c.toNat = 59 := by rw [he]; rfl
    omega

theorem isValidIdentifier_parts {s : String} (h : isValidIdentifier s = true) :
    s.data ≠ [] ∧ (∀ c ∈ s.data, isIdentCh c = true)
      ∧ isIdentStartCh (s.data.headD 'x') = true := by
  rw [isValidIdentifier] at h
  cases hd : s.data with
  | nil => rw [hd] at h; exact absurd h (by decide)
  | cons c r =>
    rw [hd] at h
    simp only [Bool.and_eq_true, List.all_eq_true] at h
    refine ⟨by simp, ?_, by simpa using h.1⟩
    intro x hx
    rcases List.mem_cons.1 hx with hx | hx
    · subst hx
      simp [isIdentCh, h.1]
    · exact h.2 x hx

theorem splitDefsGo_no_comma (cs acc : List Char) (h : ∀ ch ∈ cs, ch ≠ ',') :
    splitDefsGo cs acc = [⟨acc.reverse ++ cs⟩] := by
  induction cs generalizing acc with
  | nil => simp [splitDefsGo]
  | cons x r ih =>
    have hx : x ≠ ',' := h x (List.mem_cons_self _ _)
    rw [splitDefsGo, if_neg (by simp [hx])]
    rw [ih _ (fun ch hch => h ch (List.mem_cons_of_mem _ hch))]
    simp

theorem trimStr_no_ws_ends (cs : List Char) (h1 : isWsCh (cs.headD 'x') = false)
    (h2 : isWsCh (cs.getLastD 'x') = false) :
    trimStr (⟨cs⟩ : String) = (⟨cs⟩ : String) := by
  cases cs with
  | nil => rfl
  | cons c t =>
    have hdw : (c :: t).dropWhile isWsCh = c :: t := by
      rw [List.dropWhile_cons]
      simp only [List.headD_cons] at h1
      simp [h1]
    show (⟨(((c :: t).dropWhile isWsCh).reverse.dropWhile isWsCh).reverse⟩ : String) = _
    rw [hdw]
    have hrev : ((c :: t).reverse).dropWhile isWsCh = (c :: t).reverse := by
      cases hr : (c :: t).reverse with
      | nil => simp at hr
      | cons y ys =>
        rw [List.dropWhile_cons]
        have hy : y = (c :: t).getLastD 'x' := by
          have := List.head?_reverse (c :: t)
          rw [hr] at this
          simp at this
          rw [List.getLastD_eq_getLast?]
          rw [← this]
          rfl
        rw [← hy] at h2
        simp [h2]
    rw [hrev, List.reverse_reverse]

end SqlCliq

namespace SqlCliq

theorem getLastD_mem (l : List Char) (d : Char) (h : l ≠ []) : l.getLastD d ∈ l := by
  induction l generalizing d with
  | nil => exact absurd rfl h
  | cons x t ih =>
    rw [List.getLastD_cons]
    cases t with
    | nil => simp [List.getLastD]
    | cons y u => exact List.mem_cons_of_mem _ (ih x (by simp))

theorem getLastD_append_right (l1 l2 : List Char) (d : Char) (h : l2 ≠ []) :
    (l1 ++ l2).getLastD d = l2.getLastD d := by
  rw [List.getLastD_eq_getLast? d, List.getLastD_eq_getLast? d,
    List.getLast?_append_of_ne_nil l1 h]

theorem identCh_not_ws {c : Char} (h : isIdentCh c = true) : isWsCh c = false :=
  (isIdentCh_not_special h).1

/-- A valid identifier is untouched by `trim`. -/
theorem trimStr_ident (c : String) (hc : isValidIdentifier c = true) : trimStr c = c := by
  obtain ⟨hne, hall, _⟩ := isValidIdentifier_parts hc
  have := trimStr_no_ws_ends c.data
    (by
      cases hd : c.data with
      | nil => exact absurd hd hne
      | cons x t =>
        simp only [List.headD_cons]
        exact identCh_not_ws (hall x (by rw [hd]; exact List.mem_cons_self _ _)))
    (identCh_not_ws (hall _ (getLastD_mem c.data 'x' hne)))
  exact this

end SqlCliq

namespace SqlCliq

/-- On `name type` input with an identifier name and a comma/whitespace-free
nonempty type token that the constraint filter does not discard, the column
parser yields exactly one column with uppercased type. -/
theorem parseColumnDefinitions_single (c ty : String)
    (hc : isValidIdentifier c = true) (hty0 : ty.data ≠ [])
    (htyW : ∀ ch ∈ ty.data, isWsCh ch = false ∧ ch ≠ ',')
    (hcon : constraintKeywords.any
        (fun kw => strStartsWith (upperStr (c ++ " " ++ ty)) kw) = false) :
    parseColumnDefinitions (c ++ " " ++ ty) = [⟨c, upperStr ty⟩] := by
  obtain ⟨hcne, hcall, hcstart⟩ := isValidIdentifier_parts hc
  have hdata : (c ++ " " ++ ty).data = c.data ++ ' ' :: ty.data := by
    simp [String.data_append]
  have hfne : (c ++ " " ++ ty).data ≠ [] := by rw [hdata]; simp
  have hne : ((c ++ " " ++ ty) == "") = false := by
    rw [beq_eq_false_iff_ne]
    intro he
    rw [he] at hfne
    exact hfne rfl
  have heta : (⟨(c ++ " " ++ ty).data⟩ : String) = c ++ " " ++ ty := rfl
  have hnocomma : ∀ ch ∈ (c ++ " " ++ ty).data, ch ≠ ',' := by
    rw [hdata]
    intro ch hch
    rcases List.mem_append.1 hch with hm | hm
    · exact (isIdentCh_not_special (hcall ch hm)).2.1
    · rcases List.mem_cons.1 hm with hm | hm
      · subst hm; decide
      · exact (htyW ch hm).2
  have hsplit : splitDefs (c ++ " " ++ ty).data = [⟨(c ++ " " ++ ty).data⟩] := by
    have := splitDefsGo_no_comma (c ++ " " ++ ty).data [] hnocomma
    simpa using this
  have htrim : trimStr (c ++ " " ++ ty) = c ++ " " ++ ty := by
    have h1 : isWsCh ((c ++ " " ++ ty).data.headD 'x') = false := by
      rw [hdata]
      cases hd : c.data with
      | nil => exact absurd hd hcne
      | cons x t =>
        show isWsCh ((x :: (t ++ ' ' :: ty.data)).headD 'x') = false
        simp only [List.headD_cons]
        exact identCh_not_ws (hcall x (by rw [hd]; exact List.mem_cons_self _ _))
    have h2 : isWsCh ((c ++ " " ++ ty).data.getLastD 'x') = false := by
      rw [hdata]
      have hstep : (' ' :: ty.data).getLastD 'x' = ty.data.getLastD 'x' := by
        rw [show (' ' :: ty.data) = [' '] ++ ty.data from rfl]
        exact getLastD_append_right [' '] ty.data 'x' hty0
      rw [getLastD_append_right c.data (' ' :: ty.data) 'x' (by simp), hstep]
      exact (htyW _ (getLastD_mem ty.data 'x' hty0)).1
    exact trimStr_no_ws_ends (c ++ " " ++ ty).data h1 h2
  have htrimty : trimStr ty = ty := by
    have h1 : isWsCh (ty.data.headD 'x') = false := by
      cases hd : ty.data with
      | nil => exact absurd hd hty0
      | cons x t =>
        simp only [List.headD_cons]
        exact (htyW x (by rw [hd]; exact List.mem_cons_self _ _)).1
    exact trimStr_no_ws_ends ty.data h1 ((htyW _ (getLastD_mem ty.data 'x' hty0)).1)
  have hfrag : fragNameType (c ++ " " ++ ty).data = some (c, ty) := by
    rw [hdata]
    cases hd : c.data with
    | nil => exact absurd hd hcne
    | cons x t =>
      have hxstart : isIdentStartCh x = true := by
        rw [hd] at hcstart
        simpa using hcstart
      have htall : ∀ ch ∈ t, isIdentCh ch = true := by
        intro ch hch
        exact hcall ch (by rw [hd]; exact List.mem_cons_of_mem _ hch)
      show fragNameType (x :: (t ++ ' ' :: ty.data)) = some (c, ty)
      rw [fragNameType, identSplit, if_pos hxstart]
      dsimp only []
      rw [takeWhile_append_stop isIdentCh t ty.data ' ' htall (by decide)]
      rw [List.drop_left t (' ' :: ty.data)]
      have hws1 : ws1 (' ' :: ty.data) = some ty.data := by
        rw [ws1, if_pos (by decide)]
        cases hty : ty.data with
        | nil => exact absurd hty hty0
        | cons y u =>
          rw [List.dropWhile_cons]
          rw [(htyW y (by rw [hty]; exact List.mem_cons_self _ _)).1]
          simp
      rw [hws1]
      dsimp only []
      have hnl : (ty.data.all fun ch => ch != '\n') = true := by
        rw [List.all_eq_true]
        intro ch hch
        have hw := (htyW ch hch).1
        simp only [bne_iff_ne, ne_eq]
        intro he
        rw [he] at hw
        exact absurd hw (by decide)
      rw [if_neg (by
        simp only [hnl, Bool.not_true, Bool.or_false, List.isEmpty_iff]
        exact hty0)]
      show some ((⟨x :: t⟩ : String), (⟨ty.data⟩ : String)) = some (c, ty)
      rw [show (⟨x :: t⟩ : String) = c from by rw [← hd]]
  rw [parseColumnDefinitions, if_neg (by simp [hne]), hsplit]
  rw [List.foldr_cons, List.foldr_nil]
  dsimp only []
  rw [heta, htrim, if_neg (by simp [hne]), if_neg (by simp [hcon]), hfrag]
  dsimp only []
  rw [trimStr_ident c hc, htrimty]

end SqlCliq

namespace SqlCliq

/-- Counterexample to C5 as stated: table `t` exists and `unique_id` is not
one of its columns, yet `ALTER TABLE t ADD COLUMN unique_id INT` fails,
because the new-column text is run through the column parser whose
constraint filter discards fragments starting with `UNIQUE`. -/
theorem c5_counterexample :
    (handleAlterTableAddColumn ["TABLE", "t", "ADD", "COLUMN", "unique_id", "INT"]
        (some "d") fixIntStoreRow).output
      = "Error: Could not parse new column definition: 'unique_id INT'. Ensure it is in 'name TYPE' format."
  ∧ (handleAlterTableAddColumn ["TABLE", "t", "ADD", "COLUMN", "unique_id", "INT"]
        (some "d") fixIntStoreRow).newDatabases = none := by
  exact ⟨by decide, by decide⟩

/-- Amended C5: with table `t` present, a valid new column name `c` not
already among the columns (case-insensitively), and `c type` not
constraint-filtered, the column is appended at the end of the schema and
every row gains `c = null` (other values untouched); a duplicate name
(case-insensitively) fails with an error and no store. -/
theorem c5_alter_add_column (dbs : DatabasesStructure) (cdb t c ty : String)
    (db : DatabaseSchema) (table : TableSchema)
    (hdb : alGet dbs cdb = some db) (htbl : alGet db.tables t = some table)
    (hvt : isValidIdentifier t = true) (hvc : isValidIdentifier c = true)
    (hty0 : ty.data ≠ []) (htyW : ∀ ch ∈ ty.data, isWsCh ch = false ∧ ch ≠ ',' ∧ ch ≠ ';') :
    (table.parsedColumns.any (fun col => eqNameCI col.name c) = true →
      handleAlterTableAddColumn ["TABLE", t, "ADD", "COLUMN", c, ty] (some cdb) dbs
        = { newDatabases := none,
            output := "Error: Column '" ++ c ++ "' already exists in table '" ++ t ++ "'." })
  ∧ (table.parsedColumns.any (fun col => eqNameCI col.name c) = false →
     constraintKeywords.any (fun kw => strStartsWith (upperStr (c ++ " " ++ ty)) kw) = false →
      handleAlterTableAddColumn ["TABLE", t, "ADD", "COLUMN", c, ty] (some cdb) dbs
        = { newDatabases := some (alSet dbs cdb
              (DatabaseSchema.mk
                (alSet db.tables t
                  (TableSchema.mk
                    (if (table.columnsDefinition != "") = true then
                        table.columnsDefinition ++ ", " ++ c ++ " " ++ upperStr ty
                      else c ++ " " ++ upperStr ty)
                    (table.parsedColumns ++ [ColumnDefinition.mk c (upperStr ty)])
                    (table.data.map (fun row => rowSet row c JsVal.null))))
                db.passwordHash)),
            output := "Column '" ++ c ++ "' added to table '" ++ t ++ "'." }) := by
  have ht0 : t ≠ "" := by intro h; rw [h] at hvt; exact absurd hvt (by decide)
  have hc0 : c ≠ "" := by intro h; rw [h] at hvc; exact absurd hvc (by decide)
  have hty' : ty ≠ "" := by intro h; rw [h] at hty0; exact hty0 rfl
  have hfilter : ty.data.filter (fun ch => ch != ';') = ty.data :=
    List.filter_eq_self.mpr (fun ch hch => by simp [(htyW ch hch).2.2])
  have hbind : (some cdb).bind (fun c0 => (alGet dbs c0).map (fun db0 => (c0, db0)))
      = some (cdb, db) := by
    dsimp only [Option.bind]
    rw [hdb]
    rfl
  have hguard : (decide ((["TABLE", t, "ADD", "COLUMN", c, ty] : List String).length < 5)
      || !(upperStr ((["TABLE", t, "ADD", "COLUMN", c, ty] : List String).getD 0 "") == "TABLE")
      || !(upperStr ((["TABLE", t, "ADD", "COLUMN", c, ty] : List String).getD 2 "") == "ADD")
      || !(upperStr ((["TABLE", t, "ADD", "COLUMN", c, ty] : List String).getD 3 "") == "COLUMN"))
      = false := rfl
  have hdrop : (⟨(joinSep " " ((["TABLE", t, "ADD", "COLUMN", c, ty] : List String).drop 5)).data.filter
      (fun ch => ch != ';')⟩ : String) = ty := by
    show (⟨ty.data.filter (fun ch => ch != ';')⟩ : String) = ty
    rw [hfilter]
  have hupne : (upperStr ty == "") = false := by
    rw [beq_eq_false_iff_ne]
    intro h
    apply hty0
    have h2 := congrArg String.data h
    simpa [upperStr] using h2
  constructor
  · intro hdup
    rw [handleAlterTableAddColumn, hbind]
    dsimp only []
    rw [hguard, if_neg (Bool.false_ne_true)]
    rw [show ((["TABLE", t, "ADD", "COLUMN", c, ty] : List String).getD 1 "") = t from rfl,
      show ((["TABLE", t, "ADD", "COLUMN", c, ty] : List String).getD 4 "") = c from rfl]
    rw [hdrop]
    rw [if_neg (by simp [ht0, hvt]), if_neg (by simp [hc0, hvc]),
      if_neg (by simp [hty'])]
    rw [htbl]
    dsimp only []
    rw [if_pos hdup]
  · intro hdup hcon
    have htyW2 : ∀ ch ∈ ty.data, isWsCh ch = false ∧ ch ≠ ',' :=
      fun ch hch => ⟨(htyW ch hch).1, (htyW ch hch).2.1⟩
    rw [handleAlterTableAddColumn, hbind]
    dsimp only []
    rw [hguard, if_neg (Bool.false_ne_true)]
    rw [show ((["TABLE", t, "ADD", "COLUMN", c, ty] : List String).getD 1 "") = t from rfl,
      show ((["TABLE", t, "ADD", "COLUMN", c, ty] : List String).getD 4 "") = c from rfl]
    rw [hdrop]
    rw [if_neg (by simp [ht0, hvt]), if_neg (by simp [hc0, hvc]),
      if_neg (by simp [hty'])]
    rw [htbl]
    dsimp only []
    rw [if_neg (by simp [hdup])]
    rw [parseColumnDefinitions_single c ty hvc hty0 htyW2 hcon]
    rw [if_neg (by simp [hc0, hupne])]
    rfl

end SqlCliq

namespace SqlCliq

theorem c5_witness :
    (handleAlterTableAddColumn ["TABLE", "t", "ADD", "COLUMN", "age", "INT"]
        (some "d") fixIntStoreRow).output = "Column 'age' added to table 't'."
  ∧ (handleAlterTableAddColumn ["TABLE", "t", "ADD", "COLUMN", "age", "INT"]
        (some "d") fixIntStoreRow).newDatabases
      = some [("d", ⟨[("t", ⟨"x INT, age INT", [⟨"x", "INT"⟩, ⟨"age", "INT"⟩],
          [[("x", JsVal.num 1), ("age", JsVal.null)]]⟩)], none⟩)] := by
  have h := (c5_alter_add_column fixIntStoreRow "d" "t" "age" "INT"
      ⟨[("t", fixIntTableRow)], none⟩ fixIntTableRow rfl rfl (by decide) (by decide)
      (by decide) (by decide)).2 (by decide) (by decide)
  refine ⟨by rw [h]; rfl, by rw [h]; rfl⟩

end SqlCliq

namespace SqlCliq

theorem strAppend_assoc (a b c : String) : (a ++ b) ++ c = a ++ (b ++ c) := by
  cases a with | mk ad =>
  cases b with | mk bd =>
  cases c with | mk cd =>
  show String.mk ((ad ++ bd) ++ cd) = String.mk (ad ++ (bd ++ cd))
  rw [List.append_assoc]

theorem c1aux_insert (s : String) (cdb : Option String) (dbs : DatabasesStructure) :
    (handleInsertData s cdb dbs).newDatabases = none
    ∨ errPre (handleInsertData s cdb dbs).output = false := by
  unfold handleInsertData
  repeat' first
    | split
    | dsimp only []
  all_goals first
    | exact Or.inl rfl
    | exact Or.inr (errPre_append_head _ _ '1' _ rfl (by decide))

theorem c1aux_createDb (H : String → String) (s : String) (dbs : DatabasesStructure) :
    (handleCreateDatabase H s dbs).newDatabases = dbs
    ∨ errPre (handleCreateDatabase H s dbs).output = false := by
  unfold handleCreateDatabase createDatabaseCore
  repeat' first
    | split
    | dsimp only []
  all_goals first
    | exact Or.inl rfl
    | exact Or.inr (errPre_append_head _ _ 'D' _ rfl (by decide))

theorem c1aux_createTable (s : String) (cdb : Option String) (dbs : DatabasesStructure) :
    (handleCreateTable s cdb dbs).newDatabases = dbs
    ∨ errPre (handleCreateTable s cdb dbs).output = false := by
  unfold handleCreateTable
  repeat' first
    | split
    | dsimp only []
  all_goals first
    | exact Or.inl rfl
    | exact Or.inr (errPre_append_head _ _ 'T' _ rfl (by decide))

theorem c1aux_use (t : String) (dbs : DatabasesStructure) :
    (handleUseDatabase t dbs).newCurrentDb = none
    ∨ errPreL (handleUseDatabase t dbs).output = false := by
  unfold handleUseDatabase
  repeat' first
    | split
    | dsimp only []
  all_goals first
    | exact Or.inl rfl
    | exact Or.inr (errPre_append_head _ _ 'D' _ rfl (by decide))

theorem c1aux_pwAttempt (H : String → String) (t u : String) (dbs : DatabasesStructure) :
    (handlePasswordAttempt H t u dbs).newCurrentDb = none
    ∨ errPre (handlePasswordAttempt H t u dbs).output = false := by
  unfold handlePasswordAttempt
  repeat' first
    | split
    | dsimp only []
  all_goals first
    | exact Or.inl rfl
    | exact Or.inr (errPre_append_head _ _ 'A' _ rfl (by decide))

theorem c1aux_dropTable (t : String) (cdb : Option String) (dbs : DatabasesStructure) :
    (handleDropTable t cdb dbs).newDatabases = none
    ∨ errPre (handleDropTable t cdb dbs).output = false := by
  unfold handleDropTable
  repeat' first
    | split
    | dsimp only []
  all_goals first
    | exact Or.inl rfl
    | exact Or.inr (errPre_append_head _ _ 'T' _ rfl (by decide))

theorem c1aux_dropDb (t : String) (cdb : Option String) (dbs : DatabasesStructure) :
    (handleDropDatabase t cdb dbs).newDatabases = none
    ∨ errPreL (handleDropDatabase t cdb dbs).output = false := by
  unfold handleDropDatabase
  repeat' first
    | split
    | dsimp only []
  all_goals first
    | exact Or.inl rfl
    | exact Or.inr (errPre_append_head _ _ 'D' _ rfl (by decide))

theorem c1aux_pwDrop (H : String → String) (t u : String) (cdb : Option String)
    (dbs : DatabasesStructure) :
    (handlePasswordAttemptAndDropDatabase H t u cdb dbs).newDatabases = none
    ∨ errPre (handlePasswordAttemptAndDropDatabase H t u cdb dbs).output = false := by
  unfold handlePasswordAttemptAndDropDatabase
  repeat' first
    | split
    | dsimp only []
  all_goals first
    | exact Or.inl rfl
    | exact Or.inr (errPre_append_head _ _ 'D' _ rfl (by decide))

theorem c1aux_delete (s : String) (cdb : Option String) (dbs : DatabasesStructure) :
    (handleDeleteData s cdb dbs).newDatabases = none
    ∨ errPre (handleDeleteData s cdb dbs).output = false := by
  unfold handleDeleteData
  repeat' first
    | split
    | dsimp only []
  all_goals first
    | exact Or.inl rfl
    | exact Or.inr (by rw [strAppend_assoc, strAppend_assoc]; exact errPre_count_msg _ _)

theorem c1aux_update (s : String) (cdb : Option String) (dbs : DatabasesStructure) :
    (handleUpdateData s cdb dbs).newDatabases = none
    ∨ errPre (handleUpdateData s cdb dbs).output = false := by
  unfold handleUpdateData
  repeat' first
    | split
    | dsimp only []
  all_goals first
    | exact Or.inl rfl
    | exact Or.inr (by rw [strAppend_assoc, strAppend_assoc]; exact errPre_count_msg _ _)

theorem c1aux_alter (args : List String) (cdb : Option String) (dbs : DatabasesStructure) :
    (handleAlterTableAddColumn args cdb dbs).newDatabases = none
    ∨ errPre (handleAlterTableAddColumn args cdb dbs).output = false := by
  unfold handleAlterTableAddColumn
  repeat' first
    | split
    | dsimp only []
  all_goals first
    | exact Or.inl rfl
    | exact Or.inr (errPre_append_head _ _ 'C' _ rfl (by decide))

theorem c1aux_rename (t u : String) (cdb : Option String) (dbs : DatabasesStructure) :
    (handleRenameTable t u cdb dbs).newDatabases = none
    ∨ errPre (handleRenameTable t u cdb dbs).output = false := by
  unfold handleRenameTable
  repeat' first
    | split
    | dsimp only []
  all_goals first
    | exact Or.inl rfl
    | exact Or.inr (errPre_append_head _ _ 'T' _ rfl (by decide))

/-- C1: for every store operation, whenever the output is an error line the
store the caller ends up with is exactly the input store: CREATE DATABASE and
CREATE TABLE return the input store itself on error; USE and the password
attempt leave the current-database selection untouched on error; the mutating
handlers (INSERT, UPDATE, DELETE, DROP TABLE, ALTER, RENAME, DROP DATABASE and
its password path) return no replacement store on error, so the caller keeps
the input store (`mutStore`); SELECT's result type carries no store at all.
In particular CREATE DATABASE of an already-present name errors and leaves the
store unchanged. -/
theorem c1_error_leaves_store (H : String → String) (s t u : String) (args : List String)
    (cdb : Option String) (dbs : DatabasesStructure) :
    (errPre (handleCreateDatabase H s dbs).output = true →
      (handleCreateDatabase H s dbs).newDatabases = dbs)
  ∧ (errPre (handleCreateTable s cdb dbs).output = true →
      (handleCreateTable s cdb dbs).newDatabases = dbs)
  ∧ (errPreL (handleUseDatabase t dbs).output = true →
      (handleUseDatabase t dbs).newCurrentDb = none)
  ∧ (errPre (handlePasswordAttempt H t u dbs).output = true →
      (handlePasswordAttempt H t u dbs).newCurrentDb = none)
  ∧ (errPre (handleInsertData s cdb dbs).output = true →
      mutStore dbs (handleInsertData s cdb dbs).newDatabases = dbs)
  ∧ (errPre (handleUpdateData s cdb dbs).output = true →
      mutStore dbs (handleUpdateData s cdb dbs).newDatabases = dbs)
  ∧ (errPre (handleDeleteData s cdb dbs).output = true →
      mutStore dbs (handleDeleteData s cdb dbs).newDatabases = dbs)
  ∧ (errPre (handleDropTable t cdb dbs).output = true →
      mutStore dbs (handleDropTable t cdb dbs).newDatabases = dbs)
  ∧ (errPre (handleAlterTableAddColumn args cdb dbs).output = true →
      mutStore dbs (handleAlterTableAddColumn args cdb dbs).newDatabases = dbs)
  ∧ (errPre (handleRenameTable t u cdb dbs).output = true →
      mutStore dbs (handleRenameTable t u cdb dbs).newDatabases = dbs)
  ∧ (errPreL (handleDropDatabase t cdb dbs).output = true →
      mutStore dbs (handleDropDatabase t cdb dbs).newDatabases = dbs)
  ∧ (errPre (handlePasswordAttemptAndDropDatabase H t u cdb dbs).output = true →
      mutStore dbs (handlePasswordAttemptAndDropDatabase H t u cdb dbs).newDatabases = dbs)
  ∧ (∀ pw, isValidIdentifier t = true → (alGet dbs t).isSome = true →
      errPre (createDatabaseCore H t pw dbs).output = true
      ∧ (createDatabaseCore H t pw dbs).newDatabases = dbs) := by
  refine ⟨?_, ?_, ?_, ?_, ?_, ?_, ?_, ?_, ?_, ?_, ?_, ?_, ?_⟩
  · intro h
    exact (c1aux_createDb H s dbs).resolve_right (by simp [h])
  · intro h
    exact (c1aux_createTable s cdb dbs).resolve_right (by simp [h])
  · intro h
    exact (c1aux_use t dbs).resolve_right (by simp [h])
  · intro h
    exact (c1aux_pwAttempt H t u dbs).resolve_right (by simp [h])
  · intro h
    rw [(c1aux_insert s cdb dbs).resolve_right (by simp [h])]
    rfl
  · intro h
    rw [(c1aux_update s cdb dbs).resolve_right (by simp [h])]
    rfl
  · intro h
    rw [(c1aux_delete s cdb dbs).resolve_right (by simp [h])]
    rfl
  · intro h
    rw [(c1aux_dropTable t cdb dbs).resolve_right (by simp [h])]
    rfl
  · intro h
    rw [(c1aux_alter args cdb dbs).resolve_right (by simp [h])]
    rfl
  · intro h
    rw [(c1aux_rename t u cdb dbs).resolve_right (by simp [h])]
    rfl
  · intro h
    rw [(c1aux_dropDb t cdb dbs).resolve_right (by simp [h])]
    rfl
  · intro h
    rw [(c1aux_pwDrop H t u cdb dbs).resolve_right (by simp [h])]
    rfl
  · intro pw hvt hsome
    have ht0 : t ≠ "" := by
      intro he
      rw [he] at hvt
      exact absurd hvt (by decide)
    unfold createDatabaseCore
    rw [if_neg (by simp [ht0, hvt]), if_pos hsome]
    exact ⟨rfl, rfl⟩

theorem c1_witness :
    errPre (createDatabaseCore (fun x => x) "d" none fixIntStore).output = true
  ∧ (createDatabaseCore (fun x => x) "d" none fixIntStore).newDatabases = fixIntStore :=
  (c1_error_leaves_store (fun x => x) "x" "d" "x" [] none
      fixIntStore).2.2.2.2.2.2.2.2.2.2.2.2 none (by decide) (by decide)

end SqlCliq

namespace SqlCliq

theorem strLtB_iff_lex (xs ys : List Char) :
    strLtB xs ys = true ↔ List.Lex (· < ·) xs ys := by
  induction xs generalizing ys with
  | nil =>
    cases ys with
    | nil =>
      simp only [strLtB]
      exact iff_of_false (by decide) (List.Lex.not_nil_right _ _)
    | cons b bs =>
      exact iff_of_true rfl List.Lex.nil
  | cons a as ih =>
    cases ys with
    | nil =>
      simp only [strLtB]
      exact iff_of_false (by decide) (List.Lex.not_nil_right _ _)
    | cons b bs =>
      by_cases hab : a = b
      · subst hab
        have he : strLtB (a :: as) (a :: bs) = strLtB as bs := if_pos rfl
        rw [he, ih bs]
        exact (List.Lex.cons_iff).symm
      · simp only [strLtB, if_neg hab, decide_eq_true_eq]
        constructor
        · exact fun h => List.Lex.rel h
        · intro h
          cases h with
          | cons h' => exact absurd rfl hab
          | rel h' => exact h'

theorem strLtB_lt (x y : String) : strLtB x.data y.data = true ↔ x < y := by
  rw [String.lt_iff_toList_lt]
  exact strLtB_iff_lex x.data y.data

theorem cmpOrd_lt_iff {k : Type} [LinearOrder k] (x y : k) : cmpOrd x y < 0 ↔ x < y := by
  unfold cmpOrd
  split_ifs with h1 h2
  · simp [h1]
  · simp [h1, h2]
  · simp [h1]

theorem insertBy_perm {a : Type} (cmp : a → a → Int) (x : a) (l : List a) :
    List.Perm (insertBy cmp x l) (x :: l) := by
  induction l with
  | nil => exact List.Perm.refl _
  | cons y ys ih =>
    simp only [insertBy]
    by_cases h : cmp y x < 0
    · rw [if_pos h]
      exact (List.Perm.cons y ih).trans (List.Perm.swap x y ys)
    · rw [if_neg h]

theorem insSortBy_perm {a : Type} (cmp : a → a → Int) (l : List a) :
    List.Perm (insSortBy cmp l) l := by
  induction l with
  | nil => exact List.Perm.refl _
  | cons x xs ih =>
    simp only [insSortBy]
    exact (insertBy_perm cmp x _).trans (List.Perm.cons x ih)

theorem pairwise_insertBy {a k : Type} [LinearOrder k] (cmp : a → a → Int) (key : a → k)
    (x : a) (l : List a)
    (hc : ∀ e ∈ l, cmp e x = cmpOrd (key e) (key x))
    (hl : l.Pairwise (fun e f => key e ≤ key f)) :
    (insertBy cmp x l).Pairwise (fun e f => key e ≤ key f) := by
  induction l with
  | nil => simp [insertBy]
  | cons y ys ih =>
    rw [List.pairwise_cons] at hl
    obtain ⟨hy, hys⟩ := hl
    simp only [insertBy]
    by_cases h : cmp y x < 0
    · rw [if_pos h, List.pairwise_cons]
      refine ⟨?_, ih (fun e he => hc e (List.mem_cons_of_mem _ he)) hys⟩
      intro z hz
      rcases List.mem_cons.mp ((insertBy_perm cmp x ys).mem_iff.mp hz) with hzx | hzys
      · subst hzx
        rw [hc y (List.mem_cons_self _ _)] at h
        exact le_of_lt ((cmpOrd_lt_iff _ _).mp h)
      · exact hy z hzys
    · rw [if_neg h, List.pairwise_cons]
      rw [hc y (List.mem_cons_self _ _)] at h
      have hxy : key x ≤ key y := le_of_not_lt (fun hlt => h ((cmpOrd_lt_iff _ _).mpr hlt))
      refine ⟨?_, ?_⟩
      · intro z hz
        rcases List.mem_cons.mp hz with hzy | hzys
        · rw [hzy]
          exact hxy
        · exact hxy.trans (hy z hzys)
      · rw [List.pairwise_cons]
        exact ⟨hy, hys⟩

theorem pairwise_insSortBy {a k : Type} [LinearOrder k] (cmp : a → a → Int) (key : a → k)
    (l : List a)
    (hc : ∀ e ∈ l, ∀ f ∈ l, cmp e f = cmpOrd (key e) (key f)) :
    (insSortBy cmp l).Pairwise (fun e f => key e ≤ key f) := by
  induction l with
  | nil => simp [insSortBy]
  | cons x xs ih =>
    simp only [insSortBy]
    apply pairwise_insertBy
    · intro e he
      exact hc e (List.mem_cons_of_mem _ ((insSortBy_perm cmp xs).subset he))
        x (List.mem_cons_self _ _)
    · exact ih (fun e he f hf =>
        hc e (List.mem_cons_of_mem _ he) f (List.mem_cons_of_mem _ hf))

theorem insertBy_filter_eq {a k : Type} [LinearOrder k] [DecidableEq k] (cmp : a → a → Int) (key : a → k)
    (x : a) (l : List a) (K : k)
    (hc : ∀ e ∈ l, cmp e x = cmpOrd (key e) (key x)) :
    (insertBy cmp x l).filter (fun e => decide (key e = K))
      = if key x = K then x :: l.filter (fun e => decide (key e = K))
        else l.filter (fun e => decide (key e = K)) := by
  induction l with
  | nil =>
    by_cases hx : key x = K
    · simp [insertBy, hx]
    · simp [insertBy, hx]
  | cons y ys ih =>
    have ih2 := ih (fun e he => hc e (List.mem_cons_of_mem _ he))
    simp only [insertBy]
    by_cases h : cmp y x < 0
    · rw [if_pos h]
      rw [hc y (List.mem_cons_self _ _)] at h
      have hky : key y < key x := (cmpOrd_lt_iff _ _).mp h
      by_cases hx : key x = K
      · have hyK : key y ≠ K := by
          rw [← hx]
          exact ne_of_lt hky
        rw [if_pos hx] at ih2
        simp [List.filter_cons, hyK, ih2, hx]
      · rw [if_neg hx] at ih2
        simp [List.filter_cons, hx, ih2]
    · rw [if_neg h]
      by_cases hx : key x = K
      · simp [List.filter_cons, hx]
      · simp [List.filter_cons, hx]

theorem insSortBy_filter {a k : Type} [LinearOrder k] [DecidableEq k] (cmp : a → a → Int) (key : a → k)
    (l : List a) (K : k)
    (hc : ∀ e ∈ l, ∀ f ∈ l, cmp e f = cmpOrd (key e) (key f)) :
    (insSortBy cmp l).filter (fun e => decide (key e = K))
      = l.filter (fun e => decide (key e = K)) := by
  induction l with
  | nil => rfl
  | cons x xs ih =>
    have ih2 := ih (fun e he f hf =>
      hc e (List.mem_cons_of_mem _ he) f (List.mem_cons_of_mem _ hf))
    simp only [insSortBy]
    rw [insertBy_filter_eq cmp key x _ K (fun e he =>
      hc e (List.mem_cons_of_mem _ ((insSortBy_perm cmp xs).subset he))
        x (List.mem_cons_self _ _))]
    by_cases hx : key x = K
    · rw [if_pos hx, ih2]
      simp [List.filter_cons, hx]
    · rw [if_neg hx, ih2]
      simp [List.filter_cons, hx]

theorem digitsToNat_replicate_zero (z : Nat) (l : List Char) :
    digitsToNat (List.replicate z '0' ++ l) = digitsToNat l := by
  rw [digitsToNat_append]
  have h0 : digitsToNat (List.replicate z '0') = 0 := by
    induction z with
    | zero => rfl
    | succ n ih => exact ih
  rw [h0]
  simp

theorem jsParseFloat_digits_dot (a b : List Char) (ha : a ≠ [])
    (had : ∀ c ∈ a, isDigitCh c = true) (hbd : ∀ c ∈ b, isDigitCh c = true) :
    jsParseFloat ⟨a ++ '.' :: b⟩
      = some ((digitsToNat a : Rat) + (digitsToNat b : Rat) / (10 : Rat) ^ b.length) := by
  cases a with
  | nil => exact absurd rfl ha
  | cons c t =>
    have hcd : isDigitCh c = true := had c (List.mem_cons_self _ _)
    have hc1 : c ≠ '-' := by intro h; rw [h] at hcd; exact absurd hcd (by decide)
    have hc2 : c ≠ '+' := by intro h; rw [h] at hcd; exact absurd hcd (by decide)
    have h0 : ((c :: t) ++ '.' :: b).dropWhile isWsCh = c :: (t ++ '.' :: b) :=
      dropWhile_ws_digits c _ hcd
    have htake : (c :: (t ++ '.' :: b)).takeWhile isDigitCh = c :: t :=
      takeWhile_append_stop isDigitCh (c :: t) b '.' had (by decide)
    have hdrop : (c :: (t ++ '.' :: b)).drop (c :: t).length = '.' :: b :=
      List.drop_left (c :: t) ('.' :: b)
    have htb : (b.takeWhile isDigitCh) = b := takeWhile_all _ _ hbd
    have hsgn : (match c :: (t ++ '.' :: b) with
        | '-' :: r => ((-1 : Rat), r)
        | '+' :: r => ((1 : Rat), r)
        | r => ((1 : Rat), r)) = ((1 : Rat), c :: (t ++ '.' :: b)) := by
      split
      · next heq => exact absurd (List.cons.injEq _ _ _ _ ▸ heq).1 hc1
      · next heq => exact absurd (List.cons.injEq _ _ _ _ ▸ heq).1 hc2
      · rfl
    rw [jsParseFloat]
    dsimp only []
    rw [h0, hsgn]
    dsimp only []
    rw [htake, hdrop]
    have hfrac : (match '.' :: b with
        | '.' :: r => (r.takeWhile isDigitCh, r.drop (r.takeWhile isDigitCh).length)
        | r => (([] : List Char), r)) = (b, ([] : List Char)) := by
      show (b.takeWhile isDigitCh, b.drop (b.takeWhile isDigitCh).length) = (b, ([] : List Char))
      rw [htb, List.drop_length]
    rw [hfrac]
    dsimp only []
    rw [if_neg (by simp [List.isEmpty])]
    norm_num

theorem jsParseFloat_neg_digits_dot (a b : List Char) (ha : a ≠ [])
    (had : ∀ c ∈ a, isDigitCh c = true) (hbd : ∀ c ∈ b, isDigitCh c = true) :
    jsParseFloat ⟨'-' :: (a ++ '.' :: b)⟩
      = some (-((digitsToNat a : Rat) + (digitsToNat b : Rat) / (10 : Rat) ^ b.length)) := by
  cases a with
  | nil => exact absurd rfl ha
  | cons c t =>
    have h0 : ('-' :: ((c :: t) ++ '.' :: b)).dropWhile isWsCh
        = '-' :: ((c :: t) ++ '.' :: b) := by
      rw [List.dropWhile_cons, show isWsCh '-' = false from by decide]
      simp
    have hsgn : (match '-' :: ((c :: t) ++ '.' :: b) with
        | '-' :: r => ((-1 : Rat), r)
        | '+' :: r => ((1 : Rat), r)
        | r => ((1 : Rat), r)) = ((-1 : Rat), (c :: t) ++ '.' :: b) := by
      show ((-1 : Rat), (c :: t) ++ '.' :: b) = ((-1 : Rat), (c :: t) ++ '.' :: b)
      rfl
    have htake : (c :: (t ++ '.' :: b)).takeWhile isDigitCh = c :: t :=
      takeWhile_append_stop isDigitCh (c :: t) b '.' had (by decide)
    have hdrop : (c :: (t ++ '.' :: b)).drop (c :: t).length = '.' :: b :=
      List.drop_left (c :: t) ('.' :: b)
    have htb : (b.takeWhile isDigitCh) = b := takeWhile_all _ _ hbd
    have hfrac : (match '.' :: b with
        | '.' :: r => (r.takeWhile isDigitCh, r.drop (r.takeWhile isDigitCh).length)
        | r => (([] : List Char), r)) = (b, ([] : List Char)) := by
      show (b.takeWhile isDigitCh, b.drop (b.takeWhile isDigitCh).length) = (b, ([] : List Char))
      rw [htb, List.drop_length]
    rw [jsParseFloat]
    dsimp only []
    rw [h0, hsgn]
    dsimp only []
    rw [show ((c :: t) ++ '.' :: b : List Char) = c :: (t ++ '.' :: b) from rfl]
    rw [htake, hdrop, hfrac]
    dsimp only []
    rw [if_neg (by simp [List.isEmpty])]
    norm_num

theorem jsParseFloat_digits (a : List Char) (ha : a ≠ [])
    (had : ∀ c ∈ a, isDigitCh c = true) :
    jsParseFloat ⟨a⟩ = some ((digitsToNat a : Rat)) := by
  cases a with
  | nil => exact absurd rfl ha
  | cons c t =>
    have hcd : isDigitCh c = true := had c (List.mem_cons_self _ _)
    have hc1 : c ≠ '-' := by intro h; rw [h] at hcd; exact absurd hcd (by decide)
    have hc2 : c ≠ '+' := by intro h; rw [h] at hcd; exact absurd hcd (by decide)
    have h0 : (c :: t).dropWhile isWsCh = c :: t := dropWhile_ws_digits c _ hcd
    have hsgn : (match c :: t with
        | '-' :: r => ((-1 : Rat), r)
        | '+' :: r => ((1 : Rat), r)
        | r => ((1 : Rat), r)) = ((1 : Rat), c :: t) := by
      split
      · next heq => exact absurd (List.cons.injEq _ _ _ _ ▸ heq).1 hc1
      · next heq => exact absurd (List.cons.injEq _ _ _ _ ▸ heq).1 hc2
      · rfl
    have htake : (c :: t).takeWhile isDigitCh = c :: t := takeWhile_all _ _ had
    rw [jsParseFloat]
    dsimp only []
    rw [h0, hsgn]
    dsimp only []
    rw [htake, List.drop_length]
    dsimp only []
    rw [if_neg (by simp [List.isEmpty])]
    norm_num
    rfl

theorem jsParseFloat_neg_digits (a : List Char) (ha : a ≠ [])
    (had : ∀ c ∈ a, isDigitCh c = true) :
    jsParseFloat ⟨'-' :: a⟩ = some (-(digitsToNat a : Rat)) := by
  cases a with
  | nil => exact absurd rfl ha
  | cons c t =>
    have h0 : ('-' :: (c :: t)).dropWhile isWsCh = '-' :: (c :: t) := by
      rw [List.dropWhile_cons, show isWsCh '-' = false from by decide]
      simp
    have hsgn : (match '-' :: (c :: t) with
        | '-' :: r => ((-1 : Rat), r)
        | '+' :: r => ((1 : Rat), r)
        | r => ((1 : Rat), r)) = ((-1 : Rat), c :: t) := by
      show ((-1 : Rat), c :: t) = ((-1 : Rat), c :: t)
      rfl
    have htake : (c :: t).takeWhile isDigitCh = c :: t := takeWhile_all _ _ had
    rw [jsParseFloat]
    dsimp only []
    rw [h0, hsgn]
    dsimp only []
    rw [htake, List.drop_length]
    dsimp only []
    rw [if_neg (by simp [List.isEmpty])]
    norm_num
    rfl

theorem jsNumToString_int (n : Int) : jsNumToString ((n : Rat)) = intToDecStr n := by
  rw [jsNumToString, if_pos (Rat.den_intCast n), Rat.num_intCast]

theorem jsParseFloat_intToDecStr (i : Int) : jsParseFloat (intToDecStr i) = some ((i : Rat)) := by
  by_cases hi : i < 0
  · have hd : intToDecStr i = ⟨'-' :: natToDigitChars i.natAbs⟩ := by
      simp [intToDecStr, hi]
    rw [hd, jsParseFloat_neg_digits _ (natToDigitChars_ne_nil _) (natToDigitChars_digits _)]
    rw [digitsToNat_natToDigitChars]
    congr 1
    have hna : ((i.natAbs : Int)) = -i := Int.ofNat_natAbs_of_nonpos (le_of_lt hi)
    have hna2 : -((i.natAbs : Int)) = i := (congrArg Neg.neg hna).trans (neg_neg i)
    exact_mod_cast hna2
  · have hd : intToDecStr i = ⟨natToDigitChars i.natAbs⟩ := by
      simp [intToDecStr, hi]
    rw [hd, jsParseFloat_digits _ (natToDigitChars_ne_nil _) (natToDigitChars_digits _)]
    rw [digitsToNat_natToDigitChars]
    congr 1
    rw [Int.cast_natAbs, abs_of_nonneg (le_of_not_lt hi)]

theorem jsParseFloat_split_render (ds : List Char) (k : Nat) (P : Prop) [Decidable P]
    (hk : 1 ≤ k) (hlen : k + 1 ≤ ds.length) (hdsd : ∀ c ∈ ds, isDigitCh c = true) :
    jsParseFloat ⟨(if P then ['-'] else []) ++
        (ds.take (ds.length - k) ++ '.' :: ds.drop (ds.length - k))⟩
      = some ((if P then (-1 : Rat) else 1) * (digitsToNat ds : Rat) / (10 : Rat) ^ k) := by
  have htl : (ds.take (ds.length - k)).length = ds.length - k := by
    rw [List.length_take]
    omega
  have hdl : (ds.drop (ds.length - k)).length = k := by
    rw [List.length_drop]
    omega
  have htne : ds.take (ds.length - k) ≠ [] := by
    intro he
    have h2 := congrArg List.length he
    rw [htl] at h2
    simp at h2
    omega
  have htd : ∀ c ∈ ds.take (ds.length - k), isDigitCh c = true :=
    fun c hc => hdsd c (List.mem_of_mem_take hc)
  have hdd : ∀ c ∈ ds.drop (ds.length - k), isDigitCh c = true :=
    fun c hc => hdsd c (List.mem_of_mem_drop hc)
  have hsum : digitsToNat (ds.take (ds.length - k)) * 10 ^ k
      + digitsToNat (ds.drop (ds.length - k)) = digitsToNat ds := by
    have h3 := digitsToNat_append (ds.take (ds.length - k)) (ds.drop (ds.length - k))
    rw [List.take_append_drop, hdl] at h3
    omega
  have hval : (digitsToNat (ds.take (ds.length - k)) : Rat)
      + (digitsToNat (ds.drop (ds.length - k)) : Rat) / (10 : Rat) ^ k
      = (digitsToNat ds : Rat) / (10 : Rat) ^ k := by
    have h10 : ((10 : Rat) ^ k) ≠ 0 := by positivity
    field_simp
    exact_mod_cast hsum
  by_cases hP : P
  · rw [if_pos hP]
    rw [show ((['-'] : List Char) ++ (ds.take (ds.length - k) ++ '.' :: ds.drop (ds.length - k)))
      = '-' :: (ds.take (ds.length - k) ++ '.' :: ds.drop (ds.length - k)) from rfl]
    rw [jsParseFloat_neg_digits_dot _ _ htne htd hdd]
    rw [hdl, hval, if_pos hP]
    congr 1
    ring
  · rw [if_neg hP]
    rw [show (([] : List Char) ++ (ds.take (ds.length - k) ++ '.' :: ds.drop (ds.length - k)))
      = ds.take (ds.length - k) ++ '.' :: ds.drop (ds.length - k) from rfl]
    rw [jsParseFloat_digits_dot _ _ htne htd hdd]
    rw [hdl, hval, if_neg hP]
    congr 1
    ring

theorem pad_length (k : Nat) (l : List Char) :
    k + 1 ≤ (if k + 1 ≤ l.length then l
      else List.replicate (k + 1 - l.length) '0' ++ l).length := by
  by_cases hle : k + 1 ≤ l.length
  · rw [if_pos hle]
    exact hle
  · rw [if_neg hle, List.length_append, List.length_replicate]
    omega

theorem pad_digits (k : Nat) (l : List Char) (hl : ∀ c ∈ l, isDigitCh c = true) :
    ∀ c ∈ (if k + 1 ≤ l.length then l
      else List.replicate (k + 1 - l.length) '0' ++ l), isDigitCh c = true := by
  intro c hc
  by_cases hle : k + 1 ≤ l.length
  · rw [if_pos hle] at hc
    exact hl c hc
  · rw [if_neg hle] at hc
    rcases List.mem_append.mp hc with h1 | h1
    · rw [List.eq_of_mem_replicate h1]
      decide
    · exact hl c h1

theorem pad_digitsToNat (k : Nat) (l : List Char) :
    digitsToNat (if k + 1 ≤ l.length then l
      else List.replicate (k + 1 - l.length) '0' ++ l) = digitsToNat l := by
  by_cases hle : k + 1 ≤ l.length
  · rw [if_pos hle]
  · rw [if_neg hle, digitsToNat_replicate_zero]

theorem jsParseFloat_jsNumToString (q : Rat) (h : q.den = 1 ∨ (decExp q).isSome = true) :
    jsParseFloat (jsNumToString q) = some q := by
  by_cases hden : q.den = 1
  · rw [jsNumToString, if_pos hden, jsParseFloat_intToDecStr]
    rw [Rat.coe_int_num_of_den_eq_one hden]
  · have hk0 : (decExp q).isSome = true := h.resolve_left hden
    obtain ⟨k, hk⟩ := Option.isSome_iff_exists.mp hk0
    have hden1 : (q * (10 : Rat) ^ k).den = 1 := by
      have h2 := List.find?_some hk
      simpa using h2
    have hkpos : 1 ≤ k := by
      rcases Nat.eq_zero_or_pos k with h0 | h0
      · rw [h0] at hden1
        simp at hden1
        exact absurd hden1 hden
      · exact h0
    have hq0 : q ≠ 0 := by
      intro h0
      rw [h0] at hden
      exact hden rfl
    have h10 : ((10 : Rat) ^ k) ≠ 0 := by positivity
    have hqk0 : q * (10 : Rat) ^ k ≠ 0 := mul_ne_zero hq0 h10
    have hnum0 : (q * (10 : Rat) ^ k).num ≠ 0 := Rat.num_ne_zero.mpr hqk0
    have hqN : q * (10 : Rat) ^ k = (((q * (10 : Rat) ^ k).num : Rat)) :=
      (Rat.coe_int_num_of_den_eq_one hden1).symm
    rw [jsNumToString, if_neg hden, hk]
    dsimp only []
    rw [List.append_assoc]
    rw [jsParseFloat_split_render _ k _ hkpos (pad_length k _)
      (pad_digits k _ (natToDigitChars_digits _))]
    rw [pad_digitsToNat, digitsToNat_natToDigitChars]
    congr 1
    by_cases hsgn : q.num < 0
    · rw [if_pos hsgn]
      have hqneg : q < 0 := by
        rw [← Rat.num_neg]
        exact hsgn
      have hNneg : (q * (10 : Rat) ^ k).num < 0 := by
        rw [Rat.num_neg]
        have hp : (0 : Rat) < (10 : Rat) ^ k := by positivity
        exact mul_neg_of_neg_of_pos hqneg hp
      have hcast : (((q * (10 : Rat) ^ k).num.natAbs : Nat) : Rat)
          = -(((q * (10 : Rat) ^ k).num : Rat)) := by
        rw [Int.cast_natAbs, Int.cast_abs]
        exact abs_of_neg (by exact_mod_cast hNneg)
      rw [hcast, div_eq_iff h10, hqN]
      ring_nf
      rw [Rat.num_intCast]
    · rw [if_neg hsgn]
      have hq00 : 0 ≤ q := Rat.num_nonneg.mp (le_of_not_lt hsgn)
      have hNnn : 0 ≤ (q * (10 : Rat) ^ k).num := by
        rw [Rat.num_nonneg]
        positivity
      have hcast : (((q * (10 : Rat) ^ k).num.natAbs : Nat) : Rat)
          = (((q * (10 : Rat) ^ k).num : Rat)) := by
        rw [Int.cast_natAbs, Int.cast_abs]
        exact abs_of_nonneg (by exact_mod_cast hNnn)
      rw [hcast, div_eq_iff h10, hqN]
      ring_nf
      rw [Rat.num_intCast]

theorem cmpOrd_coe {k : Type} [LinearOrder k] (x y : k) :
    cmpOrd ((x : WithBot k)) ((y : WithBot k)) = cmpOrd x y := by
  unfold cmpOrd
  simp [WithBot.coe_lt_coe]

theorem cmpOrd_bot_coe {k : Type} [LinearOrder k] (y : k) :
    cmpOrd ((⊥ : WithBot k)) ((y : WithBot k)) = -1 := by
  unfold cmpOrd
  rw [if_pos (WithBot.bot_lt_coe y)]

theorem cmpOrd_coe_bot {k : Type} [LinearOrder k] (x : k) :
    cmpOrd ((x : WithBot k)) ((⊥ : WithBot k)) = 1 := by
  unfold cmpOrd
  rw [if_neg (by simp), if_pos (WithBot.bot_lt_coe x)]

theorem cmpOrd_bot_bot {k : Type} [LinearOrder k] :
    cmpOrd ((⊥ : WithBot k)) ((⊥ : WithBot k)) = 0 := by
  unfold cmpOrd
  rw [if_neg (by simp), if_neg (by simp)]

theorem cmpOptRat_some (desc : Bool) (x y : Rat) :
    cmpOptRat desc (some x) (some y) = if desc then cmpOrd y x else cmpOrd x y := by
  rcases lt_trichotomy x y with h | h | h
  · cases desc <;> simp [cmpOptRat, cmpOrd, h, not_lt_of_lt h]
  · subst h
    cases desc <;> simp [cmpOptRat, cmpOrd]
  · cases desc <;> simp [cmpOptRat, cmpOrd, h, not_lt_of_lt h]

theorem numSortKeyAsInt_null (name : String) (r : Row)
    (h : rowGet r name = JsVal.null) :
    numSortKeyAsInt name r = (⊥ : WithBot Rat) := by
  rw [numSortKeyAsInt, h]

theorem numSortKeyAsInt_num (name : String) (r : Row) (m : Int)
    (h : rowGet r name = JsVal.num ((m : Rat))) :
    numSortKeyAsInt name r = (((m : Rat) : WithBot Rat)) := by
  rw [numSortKeyAsInt, h]
  dsimp only []
  rw [show jsToString (JsVal.num ((m : Rat))) = jsNumToString ((m : Rat)) from rfl,
    jsNumToString_int, jsParseInt_intToDecStr]

theorem sortCompare_int (col : ColumnDefinition) (desc : Bool) (a b : Row)
    (hint : intLikeType col.type = true)
    (hva : IntColVal (rowGet a col.name)) (hvb : IntColVal (rowGet b col.name)) :
    sortCompare col desc a b
      = if desc then cmpOrd (numSortKeyAsInt col.name b) (numSortKeyAsInt col.name a)
        else cmpOrd (numSortKeyAsInt col.name a) (numSortKeyAsInt col.name b) := by
  rcases hva with hva | ⟨ma, hva⟩ <;> rcases hvb with hvb | ⟨mb, hvb⟩
  · rw [numSortKeyAsInt_null _ _ hva, numSortKeyAsInt_null _ _ hvb]
    rw [sortCompare]
    rw [hva, hvb]
    cases desc <;> simp [cmpOrd_bot_bot]
  · rw [numSortKeyAsInt_null _ _ hva, numSortKeyAsInt_num _ _ _ hvb]
    rw [sortCompare]
    rw [hva, hvb]
    cases desc <;> simp [cmpOrd_bot_coe, cmpOrd_coe_bot]
  · rw [numSortKeyAsInt_num _ _ _ hva, numSortKeyAsInt_null _ _ hvb]
    rw [sortCompare]
    rw [hva, hvb]
    cases desc <;> simp [cmpOrd_bot_coe, cmpOrd_coe_bot]
  · rw [numSortKeyAsInt_num _ _ _ hva, numSortKeyAsInt_num _ _ _ hvb]
    rw [sortCompare]
    rw [hva, hvb]
    rw [show jsToString (JsVal.num ((ma : Rat))) = jsNumToString ((ma : Rat)) from rfl,
      show jsToString (JsVal.num ((mb : Rat))) = jsNumToString ((mb : Rat)) from rfl,
      jsNumToString_int, jsNumToString_int, jsParseInt_intToDecStr, jsParseInt_intToDecStr]
    rw [show ((JsVal.num ((ma : Rat)) == JsVal.null && !(JsVal.num ((mb : Rat)) == JsVal.null)) = false)
      from by simp, show ((!(JsVal.num ((ma : Rat)) == JsVal.null) && (JsVal.num ((mb : Rat)) == JsVal.null)) = false)
      from by simp, show ((JsVal.num ((ma : Rat)) == JsVal.null && (JsVal.num ((mb : Rat)) == JsVal.null)) = false)
      from by simp]
    simp only [Bool.false_eq_true, if_false]
    rw [if_pos hint]
    show cmpOptRat desc (some ((ma : Rat))) (some ((mb : Rat)))
      = if desc = true then cmpOrd (((mb : Rat) : WithBot Rat)) (((ma : Rat) : WithBot Rat))
        else cmpOrd (((ma : Rat) : WithBot Rat)) (((mb : Rat) : WithBot Rat))
    rw [cmpOptRat_some]
    cases desc <;> simp [cmpOrd_coe]

theorem numSortKeyAsFloat_null (name : String) (r : Row)
    (h : rowGet r name = JsVal.null) :
    numSortKeyAsFloat name r = (⊥ : WithBot Rat) := by
  rw [numSortKeyAsFloat, h]

theorem numSortKeyAsFloat_num (name : String) (r : Row) (q : Rat)
    (h : rowGet r name = JsVal.num q) (hq : q.den = 1 ∨ (decExp q).isSome = true) :
    numSortKeyAsFloat name r = ((q : WithBot Rat)) := by
  rw [numSortKeyAsFloat, h]
  dsimp only []
  rw [show jsToString (JsVal.num q) = jsNumToString q from rfl,
    jsParseFloat_jsNumToString q hq]

theorem sortCompare_float (col : ColumnDefinition) (desc : Bool) (a b : Row)
    (hint : intLikeType col.type = false) (hfl : floatLikeType col.type = true)
    (hva : FloatColVal (rowGet a col.name)) (hvb : FloatColVal (rowGet b col.name)) :
    sortCompare col desc a b
      = if desc then cmpOrd (numSortKeyAsFloat col.name b) (numSortKeyAsFloat col.name a)
        else cmpOrd (numSortKeyAsFloat col.name a) (numSortKeyAsFloat col.name b) := by
  rcases hva with hva | ⟨qa, hva, hqa⟩ <;> rcases hvb with hvb | ⟨qb, hvb, hqb⟩
  · rw [numSortKeyAsFloat_null _ _ hva, numSortKeyAsFloat_null _ _ hvb]
    rw [sortCompare]
    rw [hva, hvb]
    cases desc <;> simp [cmpOrd_bot_bot]
  · rw [numSortKeyAsFloat_null _ _ hva, numSortKeyAsFloat_num _ _ _ hvb hqb]
    rw [sortCompare]
    rw [hva, hvb]
    cases desc <;> simp [cmpOrd_bot_coe, cmpOrd_coe_bot]
  · rw [numSortKeyAsFloat_num _ _ _ hva hqa, numSortKeyAsFloat_null _ _ hvb]
    rw [sortCompare]
    rw [hva, hvb]
    cases desc <;> simp [cmpOrd_bot_coe, cmpOrd_coe_bot]
  · rw [numSortKeyAsFloat_num _ _ _ hva hqa, numSortKeyAsFloat_num _ _ _ hvb hqb]
    rw [sortCompare]
    rw [hva, hvb]
    rw [show jsToString (JsVal.num qa) = jsNumToString qa from rfl,
      show jsToString (JsVal.num qb) = jsNumToString qb from rfl,
      jsParseFloat_jsNumToString qa hqa, jsParseFloat_jsNumToString qb hqb]
    rw [show ((JsVal.num qa == JsVal.null && !(JsVal.num qb == JsVal.null)) = false)
      from by simp, show ((!(JsVal.num qa == JsVal.null) && (JsVal.num qb == JsVal.null)) = false)
      from by simp, show ((JsVal.num qa == JsVal.null && (JsVal.num qb == JsVal.null)) = false)
      from by simp]
    simp only [Bool.false_eq_true, if_false]
    rw [if_neg (by rw [hint]; exact Bool.false_ne_true), if_pos hfl]
    rw [cmpOptRat_some]
    cases desc <;> simp [cmpOrd_coe]

theorem strSortKey_null (name : String) (r : Row)
    (h : rowGet r name = JsVal.null) :
    strSortKey name r = (⊥ : WithBot String) := by
  rw [strSortKey, h]

theorem strSortKey_str (name : String) (r : Row) (s : String)
    (h : rowGet r name = JsVal.str s) :
    strSortKey name r = ((lowerStr s : WithBot String)) := by
  rw [strSortKey, h]
  rfl

theorem cmpStrCI_cmpOrd (desc : Bool) (x y : String) :
    cmpStrCI desc x y = if desc then cmpOrd y x else cmpOrd x y := by
  have hb : ∀ u v : String, strLtB u.data v.data = (decide (u < v)) := by
    intro u v
    by_cases h : u < v
    · simp [h, (strLtB_lt u v).mpr h]
    · simp only [h, decide_False]
      rw [← Bool.not_eq_true]
      intro hc
      exact h ((strLtB_lt u v).mp hc)
  rw [cmpStrCI, hb, hb]
  unfold cmpOrd
  rcases lt_trichotomy x y with h | h | h
  · cases desc <;> simp [h, not_lt_of_lt h]
  · subst h
    cases desc <;> simp
  · cases desc <;> simp [h, not_lt_of_lt h]

theorem sortCompare_text (col : ColumnDefinition) (desc : Bool) (a b : Row)
    (hint : intLikeType col.type = false) (hfl : floatLikeType col.type = false)
    (hva : TextColVal (rowGet a col.name)) (hvb : TextColVal (rowGet b col.name)) :
    sortCompare col desc a b
      = if desc then cmpOrd (strSortKey col.name b) (strSortKey col.name a)
        else cmpOrd (strSortKey col.name a) (strSortKey col.name b) := by
  rcases hva with hva | ⟨sa, hva⟩ <;> rcases hvb with hvb | ⟨sb, hvb⟩
  · rw [strSortKey_null _ _ hva, strSortKey_null _ _ hvb]
    rw [sortCompare]
    rw [hva, hvb]
    cases desc <;> simp [cmpOrd_bot_bot]
  · rw [strSortKey_null _ _ hva, strSortKey_str _ _ _ hvb]
    rw [sortCompare]
    rw [hva, hvb]
    cases desc <;> simp [cmpOrd_bot_coe, cmpOrd_coe_bot]
  · rw [strSortKey_str _ _ _ hva, strSortKey_null _ _ hvb]
    rw [sortCompare]
    rw [hva, hvb]
    cases desc <;> simp [cmpOrd_bot_coe, cmpOrd_coe_bot]
  · rw [strSortKey_str _ _ _ hva, strSortKey_str _ _ _ hvb]
    rw [sortCompare]
    rw [hva, hvb]
    rw [show ((JsVal.str sa == JsVal.null && !(JsVal.str sb == JsVal.null)) = false)
      from by simp, show ((!(JsVal.str sa == JsVal.null) && (JsVal.str sb == JsVal.null)) = false)
      from by simp, show ((JsVal.str sa == JsVal.null && (JsVal.str sb == JsVal.null)) = false)
      from by simp]
    simp only [Bool.false_eq_true, if_false]
    rw [if_neg (by rw [hint]; exact Bool.false_ne_true), if_neg (by rw [hfl]; exact Bool.false_ne_true)]
    rw [show jsToString (JsVal.str sa) = sa from rfl, show jsToString (JsVal.str sb) = sb from rfl]
    rw [cmpStrCI_cmpOrd]
    cases desc <;> simp [cmpOrd_coe]

theorem cmpOrd_toDual {k : Type} [LinearOrder k] (x y : k) :
    cmpOrd (OrderDual.toDual x) (OrderDual.toDual y) = cmpOrd y x := by
  unfold cmpOrd
  simp only [OrderDual.toDual_lt_toDual]

theorem sorted_and_stable_of_cmp {k : Type} [LinearOrder k] [DecidableEq k] (cmp : Row → Row → Int)
    (key : Row → k) (desc : Bool) (rows : List Row)
    (hc : ∀ a ∈ rows, ∀ b ∈ rows, cmp a b
      = if desc = true then cmpOrd (key b) (key a) else cmpOrd (key a) (key b)) :
    ((insSortBy cmp rows).Pairwise (fun a b =>
        if desc = true then key b ≤ key a else key a ≤ key b)
      ∧ ∀ K : k, (insSortBy cmp rows).filter (fun r => decide (key r = K))
          = rows.filter (fun r => decide (key r = K))) := by
  cases desc with
  | false =>
    have hc' : ∀ a ∈ rows, ∀ b ∈ rows, cmp a b = cmpOrd (key a) (key b) := by
      intro a ha b hb
      have h2 := hc a ha b hb
      simpa using h2
    constructor
    · have hp := pairwise_insSortBy cmp key rows hc'
      exact hp.imp (fun h => by simpa using h)
    · intro K
      exact insSortBy_filter cmp key rows K hc'
  | true =>
    have hc' : ∀ a ∈ rows, ∀ b ∈ rows, cmp a b
        = cmpOrd ((fun r => OrderDual.toDual (key r)) a) ((fun r => OrderDual.toDual (key r)) b) := by
      intro a ha b hb
      have h2 := hc a ha b hb
      dsimp only []
      rw [cmpOrd_toDual]
      simpa using h2
    constructor
    · have hp := pairwise_insSortBy cmp (fun r => OrderDual.toDual (key r)) rows hc'
      exact hp.imp (fun h => by simpa using h)
    · intro K
      have hf := insSortBy_filter cmp (fun r => OrderDual.toDual (key r)) rows
        (OrderDual.toDual K) hc'
      have hfc : ∀ (l : List Row),
          l.filter (fun e => decide (OrderDual.toDual (key e) = OrderDual.toDual K))
          = l.filter (fun e => decide (key e = K)) :=
        fun l => List.filter_congr (fun e _ => by simp)
      rw [← hfc, ← hfc]
      exact hf

/-- C3: for ORDER BY on an existing column, the sorted rows satisfy, in each
of the three column classes (integer-like, floating-like, textual) and under
well-formedness of the stored values: (1) the rows are pairwise ordered by the
sort key with `null` mapped to `⊥` — so null rows come before every non-null
row ascending and after them descending, and non-null keys are in numeric
(resp. case-insensitive lexical) order; and (2) for every key value the
subsequence of rows with that exact key is unchanged — the sort is stable. -/
theorem c3_order_by_sort (col : ColumnDefinition) (desc : Bool) (rows : List Row) :
    (intLikeType col.type = true →
      (∀ r ∈ rows, IntColVal (rowGet r col.name)) →
      ((sortRows col desc rows).Pairwise (fun a b =>
          if desc = true then numSortKeyAsInt col.name b ≤ numSortKeyAsInt col.name a
          else numSortKeyAsInt col.name a ≤ numSortKeyAsInt col.name b)
        ∧ ∀ K : WithBot Rat,
          (sortRows col desc rows).filter (fun r => decide (numSortKeyAsInt col.name r = K))
            = rows.filter (fun r => decide (numSortKeyAsInt col.name r = K))))
  ∧ (intLikeType col.type = false → floatLikeType col.type = true →
      (∀ r ∈ rows, FloatColVal (rowGet r col.name)) →
      ((sortRows col desc rows).Pairwise (fun a b =>
          if desc = true then numSortKeyAsFloat col.name b ≤ numSortKeyAsFloat col.name a
          else numSortKeyAsFloat col.name a ≤ numSortKeyAsFloat col.name b)
        ∧ ∀ K : WithBot Rat,
          (sortRows col desc rows).filter (fun r => decide (numSortKeyAsFloat col.name r = K))
            = rows.filter (fun r => decide (numSortKeyAsFloat col.name r = K))))
  ∧ (intLikeType col.type = false → floatLikeType col.type = false →
      (∀ r ∈ rows, TextColVal (rowGet r col.name)) →
      ((sortRows col desc rows).Pairwise (fun a b =>
          if desc = true then strSortKey col.name b ≤ strSortKey col.name a
          else strSortKey col.name a ≤ strSortKey col.name b)
        ∧ ∀ K : WithBot String,
          (sortRows col desc rows).filter (fun r => decide (strSortKey col.name r = K))
            = rows.filter (fun r => decide (strSortKey col.name r = K)))) := by
  refine ⟨?_, ?_, ?_⟩
  · intro hint hwf
    rw [sortRows]
    exact sorted_and_stable_of_cmp (sortCompare col desc) (numSortKeyAsInt col.name) desc rows
      (fun a ha b hb => sortCompare_int col desc a b hint (hwf a ha) (hwf b hb))
  · intro hint hfl hwf
    rw [sortRows]
    exact sorted_and_stable_of_cmp (sortCompare col desc) (numSortKeyAsFloat col.name) desc rows
      (fun a ha b hb => sortCompare_float col desc a b hint hfl (hwf a ha) (hwf b hb))
  · intro hint hfl hwf
    rw [sortRows]
    exact sorted_and_stable_of_cmp (sortCompare col desc) (strSortKey col.name) desc rows
      (fun a ha b hb => sortCompare_text col desc a b hint hfl (hwf a ha) (hwf b hb))

theorem c3_witness :
    ((sortRows ⟨"x", "INT"⟩ false
        [[("x", JsVal.num 2)], [("x", JsVal.null)], [("x", JsVal.num 1)]]).Pairwise (fun a b =>
          if false = true then numSortKeyAsInt "x" b ≤ numSortKeyAsInt "x" a
          else numSortKeyAsInt "x" a ≤ numSortKeyAsInt "x" b)
      ∧ (sortRows ⟨"x", "INT"⟩ false
          [[("x", JsVal.num 2)], [("x", JsVal.null)], [("x", JsVal.num 1)]]).filter
            (fun r => decide (numSortKeyAsInt "x" r = (((1 : Rat) : WithBot Rat))))
        = [[("x", JsVal.num 2)], [("x", JsVal.null)], [("x", JsVal.num 1)]].filter
            (fun r => decide (numSortKeyAsInt "x" r = (((1 : Rat) : WithBot Rat))))) := by
  have hwf : ∀ r ∈ [[("x", JsVal.num 2)], [("x", JsVal.null)], [("x", JsVal.num 1)]],
      IntColVal (rowGet r "x") := by
    intro r hr
    rcases List.mem_cons.mp hr with h | hr2
    · subst h
      refine Or.inr ⟨2, ?_⟩
      show JsVal.num 2 = JsVal.num (((2 : Int) : Rat))
      norm_num
    rcases List.mem_cons.mp hr2 with h | hr3
    · subst h
      exact Or.inl rfl
    rcases List.mem_cons.mp hr3 with h | hr4
    · subst h
      refine Or.inr ⟨1, ?_⟩
      show JsVal.num 1 = JsVal.num (((1 : Int) : Rat))
      norm_num
    · exact absurd hr4 (List.not_mem_nil r)
  have h := (c3_order_by_sort ⟨"x", "INT"⟩ false
    [[("x", JsVal.num 2)], [("x", JsVal.null)], [("x", JsVal.num 1)]]).1 rfl hwf
  exact ⟨h.1, h.2 (((1 : Rat) : WithBot Rat))⟩

end SqlCliq
